import Mathlib

/-!
# Verification of the autosub media-processing pipeline

Shallow embedding of the core pipeline of the `autosub` repository:
the subtitle translator (`src/worker/processors/translator.py`), the
transcriber (`src/worker/processors/transcriber.py`), the video
compositor (`src/worker/processors/video_processor.py`), the voice
synthesizer (`src/worker/processors/tts_generator.py`), the source
fetcher (`src/worker/processors/downloader.py`) and the orchestrator
(`src/worker/tasks.py`).

External collaborators (language detector, Argos translation engine,
speech model, TTS backends, ffmpeg, Telegram, yt-dlp, instaloader, the
database) are modelled as oracle fields of environment structures; the
control flow around them is translated line by line from the Python
source.
-/

namespace Autosub

/-! ## Python string primitives

Small models of the Python `str` operations the pipeline uses, all
defined over `String.data` so they reduce in the kernel.  `str.lower`
maps `Char.toLower` over the characters (the codes and error markers
compared against in the source are all ASCII), `s[:n]` takes `n`
characters, and `str.strip` drops ASCII whitespace from both ends. -/

/-- Characters removed by Python `str.strip()` (ASCII whitespace). -/
def isPySpace (c : Char) : Bool :=
  c = ' ' || c = '\t' || c = '\n' || c = '\r' || c = '\x0b' || c = '\x0c'

/-- Python `str.strip()` on a list of characters. -/
def pyStripList (s : List Char) : List Char :=
  ((s.dropWhile isPySpace).reverse.dropWhile isPySpace).reverse

/-- Python `str.strip()`. -/
def pyStrip (s : String) : String :=
  ⟨pyStripList s.data⟩

/-- Python `str.lower`, character by character (`Char.toLower`; the
strings compared against in the source are all ASCII). -/
def pyLower (s : String) : String :=
  ⟨s.data.map Char.toLower⟩

/-- Python `s[:n]`. -/
def pyTake (s : String) (n : ℕ) : String :=
  ⟨s.data.take n⟩

/-- Python `sep.join(parts)`. -/
def pyJoin (sep : String) (parts : List String) : String :=
  ⟨((parts.map String.data).intersperse sep.data).flatten⟩

/-- Python `s.startswith(pre)`. -/
def pyStartsWith (s pre : String) : Bool :=
  pre.data.isPrefixOf s.data

/-- Occurrence of `sub` as a contiguous run inside `s`. -/
def subOccurs (sub : List Char) : List Char → Bool
  | [] => sub.isEmpty
  | c :: rest => sub.isPrefixOf (c :: rest) || subOccurs sub rest

/-- Python substring test `sub in s`. -/
def pyContains (s sub : String) : Bool :=
  subOccurs sub.data s.data

/-- Decimal digit characters of a natural number (Python `f"{i}"`). -/
def natCharsCore : ℕ → ℕ → List Char
  | 0, _ => []
  | fuel + 1, n =>
      if n = 0 then []
      else natCharsCore fuel (n / 10) ++ [Char.ofNat (48 + n % 10)]

/-- Decimal rendering of a natural number as characters. -/
def natChars (n : ℕ) : List Char :=
  if n = 0 then ['0'] else natCharsCore (n + 1) n

/-- Python `int(..)` on a digit string. -/
def charsToNat (l : List Char) : ℕ :=
  l.foldl (fun n c => 10 * n + (c.toNat - 48)) 0

/-! ## SRT caption files

`parse_srt` (`src/worker/processors/translator.py:380`) scans the file
content with the regex
`(\d+)\n(\d{2}:\d{2}:\d{2},\d{3}) --> (\d{2}:\d{2}:\d{2},\d{3})\n(.*?)(?=\n\n|\Z)`
under `re.DOTALL` and keeps the two matched time codes as raw strings.
We implement the same leftmost-match scan directly: a match is a
non-empty maximal digit run, a newline, a 12-character time code,
`" --> "`, a second time code, a newline, then the shortest run of
arbitrary characters (newlines included) up to a blank line or the end
of input (the regex lookahead, not consumed). -/

/-- One parsed SRT entry: the Python dict
`{index, start, end, text}` with the time codes kept verbatim.
`stop` models the dict key `end` (a Lean keyword). -/
structure SrtEntry where
  index : ℕ
  start : List Char
  stop : List Char
  text : List Char
  deriving Repr, DecidableEq

/-- `\d{2}:\d{2}:\d{2},\d{3}`: exactly the 12-character SRT time-code
shape. -/
def isTimeCode (t : List Char) : Bool :=
  match t with
  | [a, b, c, d, e, f, g, h, i, j, k, l] =>
      a.isDigit && b.isDigit && c = ':' && d.isDigit && e.isDigit && f = ':' &&
      g.isDigit && h.isDigit && i = ',' && j.isDigit && k.isDigit && l.isDigit
  | _ => false

/-- Consume a 12-character time code from the stream. -/
def takeTimeCode? (s : List Char) : Option (List Char × List Char) :=
  if isTimeCode (s.take 12) then some (s.take 12, s.drop 12) else none

/-- Consume the maximal leading digit run (`\d+` followed by a
non-digit). -/
def takeDigits (s : List Char) : List Char × List Char :=
  (s.takeWhile Char.isDigit, s.dropWhile Char.isDigit)

/-- Consume a literal token. -/
def takeLit (lit s : List Char) : Option (List Char) :=
  if lit.isPrefixOf s then some (s.drop lit.length) else none

/-- `true` iff the stream starts with a newline. -/
def headIsNl : List Char → Bool
  | '\n' :: _ => true
  | _ => false

/-- Lazy `.*?(?=\n\n|\Z)` under DOTALL: the shortest prefix whose
remainder is a blank line or empty; the lookahead is not consumed. -/
def takeLazyText : List Char → List Char × List Char
  | [] => ([], [])
  | c :: rest =>
      if c = '\n' && headIsNl rest then ([], c :: rest)
      else
        let (t, r) := takeLazyText rest
        (c :: t, r)

/-- Match one SRT entry at the head of the stream; on success return
the entry (text stripped, per `match[3].strip()`) and the unconsumed
remainder. -/
def matchEntry (s : List Char) : Option (SrtEntry × List Char) :=
  let (ds, s1) := takeDigits s
  if ds.isEmpty then none
  else
    match s1 with
    | '\n' :: s2 =>
        match takeTimeCode? s2 with
        | none => none
        | some (ts1, s3) =>
            match takeLit " --> ".data s3 with
            | none => none
            | some s4 =>
                match takeTimeCode? s4 with
                | none => none
                | some (ts2, s5) =>
                    match s5 with
                    | '\n' :: s6 =>
                        let (txt, rest) := takeLazyText s6
                        some ({ index := charsToNat ds, start := ts1,
                                stop := ts2, text := pyStripList txt }, rest)
                    | _ => none
    | _ => none

/-- `re.findall` scan: try a match at every position, left to right,
resuming after each match.  `fuel` bounds the number of steps; each
step consumes at least one character, so `length + 1` steps suffice. -/
def scanSrt : ℕ → List Char → List SrtEntry
  | 0, _ => []
  | fuel + 1, s =>
      match matchEntry s with
      | some (e, rest) => e :: scanSrt fuel rest
      | none =>
          match s with
          | [] => []
          | _ :: rest => scanSrt fuel rest

/-- `parse_srt` (`translator.py:380-394`). -/
def parseSrt (content : List Char) : List SrtEntry :=
  scanSrt (content.length + 1) content

/-- The SRT writer of `translate_subtitles` (`translator.py:366-369`):
`f"{i}\n{start} --> {end}\n{text}\n\n"` with 1-based `enumerate`. -/
def serializeFrom (i : ℕ) : List SrtEntry → List Char
  | [] => []
  | e :: rest =>
      natChars i ++ '\n' ::
        (e.start ++ " --> ".data ++ e.stop ++ '\n' ::
          (e.text ++ '\n' :: '\n' :: serializeFrom (i + 1) rest))

/-- Serialization of a caption list, as written by
`translate_subtitles`. -/
def serializeSubs (subs : List SrtEntry) : List Char :=
  serializeFrom 1 subs

/-- No blank line (two consecutive newlines) inside the text. -/
def noDoubleNl : List Char → Bool
  | [] => true
  | [_] => true
  | a :: b :: rest => !(a = '\n' && b = '\n') && noDoubleNl (b :: rest)

/-- A well-formed SRT cue: valid 12-character time codes and a text
with no blank line and no trailing newline (the SRT boundary contract
of spec §6: free text terminated by the blank-line separator). -/
def wellFormedSub (e : SrtEntry) : Bool :=
  isTimeCode e.start && isTimeCode e.stop &&
    noDoubleNl e.text && e.text.getLast? != some '\n'

/-- The expected parse of a serialized caption list starting at index
`i`: indices re-read from their decimal rendering, time codes verbatim,
text stripped (`match[3].strip()`). -/
def parsedFrom (i : ℕ) : List SrtEntry → List SrtEntry
  | [] => []
  | e :: rest =>
      ⟨charsToNat (natChars i), e.start, e.stop, pyStripList e.text⟩ ::
        parsedFrom (i + 1) rest

/-! ## Subtitle translator (`src/worker/processors/translator.py`)

External collaborators — the `langdetect` detector, the Argos package
index/installer and the Argos translation call — are oracle fields of
`TransEnv`.  `MARIAN_MODELS` is the empty dict in the source
(`translator.py:44`), so the direct MarianMT path is never taken; we
embed the lookup anyway.  File writing is modelled by the `writeOk`
oracle (an I/O failure there is caught by the outer handler of
`translate_subtitles`, which returns the original path). -/

/-- Pivot language used when direct translation is unavailable
(`translator.py:32`). -/
def PIVOT_LANGUAGE : String := "en"

/-- `LANGUAGE_ALIASES` (`translator.py:35-42`): lookup in the literal
dict mapping each of the six supported codes to itself. -/
def lookupAlias (k : String) : Option String :=
  if k = "en" then some "en"
  else if k = "ru" then some "ru"
  else if k = "es" then some "es"
  else if k = "fr" then some "fr"
  else if k = "de" then some "de"
  else if k = "it" then some "it"
  else none

/-- `_normalize_lang_code` (`translator.py:254-265`).  Python's
`lang.lower()` is modelled by `pyLower` and `lang_lower[:2]` by
`pyTake _ 2` (all dict keys are ASCII). -/
def normalizeLangCode (lang : String) : String :=
  if lang = "" then "en"
  else
    let langLower := pyLower lang
    match lookupAlias langLower with
    | some c => c
    | none =>
        match lookupAlias (pyTake langLower 2) with
        | some c => c
        | none => "en"

/-- `MARIAN_MODELS` (`translator.py:44`): the literal empty dict. -/
def MARIAN_MODELS : List ((String × String) × String) := []

/-- `MARIAN_MODELS.get((source, target))`. -/
def marianModelFor (src tgt : String) : Option String :=
  (MARIAN_MODELS.find? (fun p => p.1.1 == src && p.1.2 == tgt)).map (fun p => p.2)

/-- Oracles for the translator's external collaborators. -/
structure TransEnv where
  /-- `langdetect.detect` on a sample text; `none` models both an
  unavailable `langdetect` package and a raised detection error. -/
  detect : String → Option String
  /-- Result of the `ensure_language_package` package lookup and
  install for a pair (the function absorbs all exceptions into
  `False`). -/
  packageAvailable : String → String → Bool
  /-- `argostranslate.translate.translate text from to`; `.error`
  models a raised exception. -/
  argosTranslate : String → String → String → Except String String
  /-- A loaded Marian model's batch translation; unreachable while
  `MARIAN_MODELS` is empty. -/
  marian : String → List String → Option (List String)
  /-- Whether writing the output SRT file succeeds. -/
  writeOk : Bool

/-- `detect_language` (`translator.py:238-251`): any failure falls back
to `"en"`. -/
def detectLanguage (env : TransEnv) (text : String) : String :=
  match env.detect text with
  | some l => l
  | none => "en"

/-- `_translate_with_marian` (`translator.py:184-217`): `None` when no
model is registered for the pair; errors are absorbed to `None`. -/
def translateWithMarian (env : TransEnv) (texts : List String)
    (src tgt : String) : Option (List String) :=
  match marianModelFor src tgt with
  | none => none
  | some m => env.marian m texts

/-- `ensure_language_package` (`translator.py:66-110`): returns `True`
immediately when the pair has a registered Marian model, otherwise the
Argos package-availability oracle. -/
def ensureLanguagePackage (env : TransEnv) (src tgt : String) : Bool :=
  if (marianModelFor src tgt).isSome then true
  else env.packageAvailable src tgt

/-- The per-text Argos loop of `_translate_batch`
(`translator.py:288-301`): empty-after-strip texts pass through; a
raised translation error aborts the whole batch with `None`. -/
def argosLoop (env : TransEnv) (src tgt : String) :
    List String → Option (List String)
  | [] => some []
  | t :: rest =>
      if pyStrip t = "" then
        (argosLoop env src tgt rest).map (fun rs => t :: rs)
      else
        match env.argosTranslate t src tgt with
        | .error _ => none
        | .ok r => (argosLoop env src tgt rest).map (fun rs => r :: rs)

/-- `_translate_batch` (`translator.py:268-301`). -/
def translateBatch (env : TransEnv) (texts : List String)
    (src tgt : String) : Option (List String) :=
  if src = tgt then some texts
  else if texts = [] then some []
  else
    match translateWithMarian env texts src tgt with
    | some r => some r
    | none =>
        if ensureLanguagePackage env src tgt then argosLoop env src tgt texts
        else none

/-- Sample text for detection: `" ".join([s["text"] for s in subtitles[:5]])`
(`translator.py:325`). -/
def sampleText (subs : List SrtEntry) : String :=
  pyJoin " " ((subs.take 5).map (fun e => String.mk e.text))

/-- The source-language resolution of `translate_subtitles`
(`translator.py:323-328`): detect and normalize only when the given
source is `None` or `"auto"`; a concrete given source is used as-is
(not normalized). -/
def resolveSourceLang (env : TransEnv) (subs : List SrtEntry)
    (sourceLanguage : Option String) : String :=
  match sourceLanguage with
  | none => normalizeLangCode (detectLanguage env (sampleText subs))
  | some s =>
      if s = "auto" then normalizeLangCode (detectLanguage env (sampleText subs))
      else s

/-- `zip(subtitles, translated_texts)` text replacement
(`translator.py:360-361`): only the first `min` entries change. -/
def applyTexts : List SrtEntry → List String → List SrtEntry
  | subs, [] => subs
  | [], _ => []
  | e :: rest, t :: ts => { e with text := t.data } :: applyTexts rest ts

/-- `output_dir / f"subtitles_{target_language}.srt"`
(`translator.py:364`). -/
def outputPathFor (outputDir tgt : String) : String :=
  outputDir ++ "/subtitles_" ++ tgt ++ ".srt"

/-- Result of `translate_subtitles`: the returned path plus the files
written (path, serialized content). -/
structure TransResult where
  path : String
  writes : List (String × List Char)
  deriving DecidableEq, Repr

/-- `translate_subtitles` (`translator.py:308-377`).  `content` is the
input file's text; the outer `except` returns the original path, which
here absorbs a failed write. -/
def translateSubtitles (env : TransEnv) (content : List Char)
    (srtPath outputDir targetLanguage : String)
    (sourceLanguage : Option String) : TransResult :=
  let subs := parseSrt content
  if subs = [] then ⟨srtPath, []⟩
  else
    let src := resolveSourceLang env subs sourceLanguage
    let tgt := normalizeLangCode targetLanguage
    if src = tgt then ⟨srtPath, []⟩
    else
      let texts := subs.map (fun e => String.mk e.text)
      let tr :=
        match translateBatch env texts src tgt with
        | some r => some r
        | none =>
            if src ≠ PIVOT_LANGUAGE ∧ tgt ≠ PIVOT_LANGUAGE then
              match translateBatch env texts src PIVOT_LANGUAGE with
              | none => none
              | some ps => translateBatch env ps PIVOT_LANGUAGE tgt
            else none
      match tr with
      | none => ⟨srtPath, []⟩
      | some ts =>
          if env.writeOk then
            let out := outputPathFor outputDir tgt
            ⟨out, [(out, serializeSubs (applyTexts subs ts))]⟩
          else ⟨srtPath, []⟩

/-! ## Speech transcriber (`src/worker/processors/transcriber.py`)

The Whisper model's output is the input here: a list of segments, each
with float times (modelled as `ℚ`; the relevant float operations are
exact or correctly rounded well inside millisecond granularity),
optional word-level timings, and text.  `transcribe_audio` serializes
them to SRT cues via `format_timestamp`. -/

/-- Python float `x % n` for positive `n` (result in `[0, n)`). -/
def pymod (x n : ℚ) : ℚ := x - n * ⌊x / n⌋

/-- `format_timestamp` (`transcriber.py:113-119`), kept as its four
numeric components `(hours, minutes, secs, millis)`; the rendered
string `HH:MM:SS,mmm` is determined by (and determines) this tuple.
Each Python `int(...)` truncation equals the floor because its
argument is non-negative (`%` with a positive modulus). -/
def formatTimestamp (seconds : ℚ) : ℤ × ℤ × ℤ × ℤ :=
  (⌊seconds / 3600⌋,
   ⌊pymod seconds 3600 / 60⌋,
   ⌊pymod seconds 60⌋,
   ⌊pymod seconds 1 * 1000⌋)

/-- Total milliseconds denoted by a rendered time code. -/
def tsVal (t : ℤ × ℤ × ℤ × ℤ) : ℤ :=
  3600000 * t.1 + 60000 * t.2.1 + 1000 * t.2.2.1 + t.2.2.2

/-- One word from the recognizer: optional start/end (backends may not
populate them) and the word text (`w.word or ""` handled by the
caller). -/
structure WhisperWord where
  wstart : Option ℚ
  wstop : Option ℚ
  word : List Char
  deriving DecidableEq, Repr

/-- One recognizer segment: `words` empty models both a missing and an
empty `segment.words` (both falsy in `if words:`). -/
structure WhisperSegment where
  words : List WhisperWord
  sstart : ℚ
  sstop : ℚ
  text : List Char
  deriving DecidableEq, Repr

/-- One serialized SRT cue of `transcribe_audio`: formatted start,
formatted end, text. -/
def TransCue := (ℤ × ℤ × ℤ × ℤ) × (ℤ × ℤ × ℤ × ℤ) × List Char

/-- The cue-emission logic of `transcribe_audio` for one segment
(`transcriber.py:78-103`): word-level cues when word timing exists
(skipping words with missing times or empty stripped text), otherwise
one segment-level cue. -/
def segmentCues (seg : WhisperSegment) : List TransCue :=
  if seg.words ≠ [] then
    seg.words.filterMap (fun w =>
      match w.wstart, w.wstop with
      | some a, some b =>
          let text := pyStripList w.word
          if text = [] then none
          else some (formatTimestamp a, formatTimestamp b, text)
      | _, _ => none)
  else
    [(formatTimestamp seg.sstart, formatTimestamp seg.sstop, pyStripList seg.text)]

/-- All cues written by `transcribe_audio` (`transcriber.py:76-103`),
in input order with sequential indices. -/
def transcribeCues (segs : List WhisperSegment) : List TransCue :=
  (segs.map segmentCues).flatten

/-- The same cue selection before formatting: the raw `(start, stop)`
rationals of each emitted cue. -/
def segmentTimes (seg : WhisperSegment) : List (ℚ × ℚ) :=
  if seg.words ≠ [] then
    seg.words.filterMap (fun w =>
      match w.wstart, w.wstop with
      | some a, some b =>
          if pyStripList w.word = [] then none else some (a, b)
      | _, _ => none)
  else
    [(seg.sstart, seg.sstop)]

/-- Raw emitted cue times of a transcription run. -/
def emittedTimes (segs : List WhisperSegment) : List (ℚ × ℚ) :=
  (segs.map segmentTimes).flatten

/-! ## Video compositor (`src/worker/processors/video_processor.py`)

The `-filter_complex` video chain built by
`process_video_with_subtitles` (`video_processor.py:176-222`), as
structured filter nodes, plus dimension semantics for the ffmpeg
filters used.  Float notes: `target_aspect = 9/16` is dyadic, hence
exact; `int(height * target_aspect) = 9*h/16` exactly, and
`int(width / target_aspect) = 16*w/9` exactly (when `16w/9` is not an
integer it is at least `1/9` away from one, far beyond double
rounding error), and `width/height > 9/16 ↔ 16*w > 9*h`. -/

inductive VFilter where
  /-- `crop=w:h:x:y`. -/
  | crop (w h x y : ℕ)
  /-- `crop=ih*9/16:ih:(iw-oh*9/16)/2:0` (unmeasured-dimensions
  fallback, `video_processor.py:203`). -/
  | cropFallback
  /-- `scale=w:h:force_original_aspect_ratio=decrease`. -/
  | scaleFit (w h : ℕ)
  /-- `scale=w:h` (exact, distorting). -/
  | scaleExact (w h : ℕ)
  /-- `pad=w:h:(ow-iw)/2:(oh-ih)/2:color=black` (centered). -/
  | pad (w h : ℕ)
  /-- `ass='…'` subtitle burn-in. -/
  | subtitleBurn
  /-- `drawtext=…` watermark overlay. -/
  | watermark
  deriving DecidableEq, Repr

/-- The vertical-format filters (`video_processor.py:180-204`). -/
def buildVerticalFilters (dims : Option (ℕ × ℕ)) : List VFilter :=
  match dims with
  | some (w, h) =>
      (if 16 * w > 9 * h then
        [VFilter.crop (9 * h / 16) h ((w - 9 * h / 16) / 2) 0]
      else if 16 * w < 9 * h then
        [VFilter.crop w (16 * w / 9) 0 ((h - 16 * w / 9) / 2)]
      else []) ++ [VFilter.scaleFit 1080 1920, VFilter.pad 1080 1920]
  | none => [VFilter.cropFallback, VFilter.scaleExact 1080 1920]

/-- The full video filter chain (`video_processor.py:176-222`). -/
def buildVideoFilters (dims : Option (ℕ × ℕ))
    (vertical subtitles watermark : Bool) : List VFilter :=
  (if vertical then buildVerticalFilters dims else []) ++
    (if subtitles then [VFilter.subtitleBurn] else []) ++
      (if watermark then [VFilter.watermark] else [])

/-- Dimension semantics of one ffmpeg filter: `none` models an ffmpeg
failure (crop window out of range, pad smaller than input).  `scaleFit`
abstracts ffmpeg's aspect-preserving rounding; the claims only use
that its output fits inside the target box. -/
def applyVFilter (d : ℕ × ℕ) : VFilter → Option (ℕ × ℕ)
  | .crop w h x y =>
      if 0 < w ∧ 0 < h ∧ x + w ≤ d.1 ∧ y + h ≤ d.2 then some (w, h) else none
  | .cropFallback =>
      let cw := 9 * d.2 / 16
      if 0 < cw ∧ cw ≤ d.1 then some (cw, d.2) else none
  | .scaleFit tw th =>
      if 0 < d.1 ∧ 0 < d.2 then
        if d.1 * th ≤ d.2 * tw then some (max 1 (d.1 * th / d.2), th)
        else some (tw, max 1 (d.2 * tw / d.1))
      else none
  | .scaleExact tw th => if 0 < d.1 ∧ 0 < d.2 then some (tw, th) else none
  | .pad tw th => if d.1 ≤ tw ∧ d.2 ≤ th then some (tw, th) else none
  | .subtitleBurn => some d
  | .watermark => some d

/-- Output dimensions of a filter chain on an input of dimensions `d`. -/
def runVFilters (fs : List VFilter) (d : ℕ × ℕ) : Option (ℕ × ℕ) :=
  fs.foldlM applyVFilter d

/-- Oracles for `process_video_with_subtitles`' externals: the ffprobe
measurement, the ffmpeg subprocess result and the output-file check. -/
structure FfmpegEnv where
  probe : Option (ℕ × ℕ)
  returncode : ℤ
  stderrOutput : String
  outputExists : Bool

/-- The subprocess/verification tail of `process_video_with_subtitles`
(`video_processor.py:282-298`): non-zero exit raises with the first
500 characters of stderr; a missing output file raises naming the
path; otherwise the output path is returned. -/
def processVideoWithSubtitles (env : FfmpegEnv) (outputDir : String)
    (vertical watermark : Bool) (subtitlesPresent : Bool) :
    Except String (String × List VFilter) :=
  let outputPath := outputDir ++ "/output.mp4"
  let filters := buildVideoFilters env.probe vertical subtitlesPresent watermark
  if env.returncode ≠ 0 then
    .error ("ffmpeg failed with code " ++ toString env.returncode ++ ": " ++
      pyTake env.stderrOutput 500)
  else if !env.outputExists then
    .error ("Output file was not created: " ++ outputPath)
  else .ok (outputPath, filters)

/-! ## Voice synthesizer (`src/worker/processors/tts_generator.py`)

The TTS backends (Coqui model load + `tts_to_file`, the gTTS fallback)
and the ffmpeg mixing subprocess are oracles; the catalog, language
resolution, SRT-segment parsing and the per-segment loop are embedded
from the source. -/

/-- A `MODEL_CATALOG` entry: backend kind, model name, optional fixed
speaker and candidate speakers (`tts_generator.py:39-114`). -/
structure TTSConfig where
  backend : String
  model : String
  speaker : Option String
  speakerCandidates : List String
  deriving DecidableEq, Repr

/-- `MODEL_CATALOG.get(lang_key)`: the voice dict for a language key,
from the literal catalog (`tts_generator.py:39-114`). -/
def modelCatalog (lang : String) : Option (List (String × TTSConfig)) :=
  if lang = "en" then
    some [("female", ⟨"coqui", "tts_models/en/ljspeech/tacotron2-DDC", none, []⟩),
          ("male", ⟨"coqui", "tts_models/en/vctk/vits", none,
            ["p258", "p270", "p362", "p248", "p292", "p306", "p254", "p278"]⟩)]
  else if lang = "ru" then
    some [("female", ⟨"coqui", "tts_models/ru/mai_female/glow-tts", none, []⟩),
          ("male", ⟨"coqui", "tts_models/ru/ruslan/vits", none, []⟩)]
  else if lang = "es" then
    some [("female", ⟨"coqui", "tts_models/es/mai/tacotron2-DDC", none, []⟩),
          ("male", ⟨"coqui", "tts_models/es/css10/vits", none, []⟩)]
  else if lang = "fr" then
    some [("female", ⟨"coqui", "tts_models/fr/mai/tacotron2-DDC", none, []⟩),
          ("male", ⟨"coqui", "tts_models/fr/css10/vits", none, []⟩)]
  else if lang = "de" then
    some [("female", ⟨"coqui", "tts_models/de/thorsten/tacotron2-DDC", none, []⟩),
          ("male", ⟨"coqui", "tts_models/de/thorsten/tacotron2-DDC", none, []⟩)]
  else if lang = "it" then
    some [("female", ⟨"coqui", "tts_models/it/mai_female/vits", none, []⟩),
          ("male", ⟨"coqui", "tts_models/it/css10/vits", none, []⟩)]
  else none

/-- `_resolve_lang_key` (`tts_generator.py:141-148`). -/
def resolveLangKey (language : String) : String :=
  if language = "" then "en"
  else
    let lang := pyLower language
    if lang.length ≥ 2 then pyTake lang 2 else "en"

/-- `_select_model_config` (`tts_generator.py:151-174`): `.error`
models the raised `TTSLanguageUnsupported`; an unknown voice falls
back to the `"female"` entry (or the first entry). -/
def selectModelConfig (language voice : String) :
    Except Unit (TTSConfig × String) :=
  let langKey := resolveLangKey language
  match modelCatalog langKey with
  | none => .error ()
  | some catalog =>
      match catalog.find? (fun p => p.1 == voice) with
      | some p => .ok (p.2, langKey)
      | none =>
          match catalog.find? (fun p => p.1 == "female") with
          | some p => .ok (p.2, langKey)
          | none =>
              match catalog with
              | p :: _ => .ok (p.2, langKey)
              | [] => .error ()

/-- `re.sub(r'<[^>]+>', '', text)` with explicit fuel (each removed
tag consumes at least two characters). -/
def removeTagsCore : ℕ → List Char → List Char
  | 0, s => s
  | _ + 1, [] => []
  | fuel + 1, c :: rest =>
      if c = '<' then
        let inner := rest.takeWhile (fun x => x ≠ '>')
        let after := rest.drop inner.length
        if inner ≠ [] ∧ after.head? = some '>' then
          removeTagsCore fuel (after.drop 1)
        else c :: removeTagsCore fuel rest
      else c :: removeTagsCore fuel rest

/-- HTML-tag removal of `parse_srt_to_segments`
(`tts_generator.py:466`). -/
def removeTags (s : List Char) : List Char :=
  removeTagsCore (s.length + 1) s

/-- `srt_time_to_seconds` (`tts_generator.py:457-461`) on the
12-character code `HH:MM:SS,mmm`. -/
def srtTimeToSecs (t : List Char) : ℚ :=
  (charsToNat (t.take 2) : ℚ) * 3600 + (charsToNat ((t.drop 3).take 2) : ℚ) * 60 +
    (charsToNat ((t.drop 6).take 2) : ℚ) + (charsToNat ((t.drop 9).take 3) : ℚ) / 1000

/-- One segment dict of `parse_srt_to_segments`. -/
structure TTSSegment where
  index : ℕ
  startTime : ℚ
  stopTime : ℚ
  text : List Char
  deriving DecidableEq, Repr

/-- `parse_srt_to_segments` (`tts_generator.py:450-479`): the same SRT
regex scan, then per entry strip HTML tags, strip whitespace, replace
newlines by spaces, and keep only non-empty texts. -/
def parseSrtToSegments (content : List Char) : List TTSSegment :=
  (parseSrt content).filterMap (fun e =>
    let text := (pyStripList (removeTags e.text)).map
      (fun c => if c = '\n' then ' ' else c)
    if text = [] then none
    else some { index := e.index, startTime := srtTimeToSecs e.start,
                stopTime := srtTimeToSecs e.stop, text := text })

/-- Oracles for the synthesizer's externals. -/
structure TTSEnv where
  /-- Whether the backend synthesis call for the `i`-th enumerated
  segment returns without raising (`tts_generator.py:523-539`). -/
  synthOk : ℕ → Bool
  /-- Whether `segment_output.exists()` afterwards
  (`tts_generator.py:541`). -/
  segmentExists : ℕ → Bool
  /-- Whether `_create_synchronized_audio_track` succeeds (zero ffmpeg
  exit code and existing output, `tts_generator.py:660-732`). -/
  mixOk : Bool
  /-- Whether the single backend synthesis of
  `generate_voiceover_simple` succeeds (`tts_generator.py:610-630`). -/
  simpleSynthOk : Bool
  /-- Whether the gTTS fallback produces a file
  (`tts_generator.py:426-447`). -/
  gttsOk : Bool

/-- The per-segment loop of `generate_voiceover_synchronized`
(`tts_generator.py:515-551`): returns the enumeration indices of
segments attempted and of segments that produced a clip.  A failed
attempt is logged and skipped; the loop never aborts. -/
def synthLoop (env : TTSEnv) : ℕ → List TTSSegment → List ℕ × List ℕ
  | _, [] => ([], [])
  | i, seg :: rest =>
      let (att, succ) := synthLoop env (i + 1) rest
      if pyStripList seg.text = [] then (att, succ)
      else if env.synthOk i && env.segmentExists i then (i :: att, i :: succ)
      else (i :: att, succ)

/-- `generate_voiceover_simple` (`tts_generator.py:566-657`): one
concatenated synthesis with gTTS fallback; every failure path returns
`none` (the whole body is wrapped in `try/except → None`). -/
def generateVoiceoverSimple (env : TTSEnv) (content : List Char)
    (outputDir language voice : String) : Option String :=
  let segments := parseSrtToSegments content
  if segments = [] then none
  else
    let fullText := pyJoin " " (segments.map (fun s => String.mk s.text))
    if pyStrip fullText = "" then none
    else
      let outputPath := outputDir ++ "/voiceover.wav"
      match selectModelConfig language voice with
      | .error _ => if env.gttsOk then some outputPath else none
      | .ok _ =>
          if env.simpleSynthOk then some outputPath
          else if env.gttsOk then some outputPath
          else none

/-- `generate_voiceover_synchronized` (`tts_generator.py:482-563`),
returning the result path together with the attempted-segment trace.
All exception paths return `none` (outer `try/except → None`). -/
def generateVoiceoverSynchronized (env : TTSEnv) (content : List Char)
    (outputDir language voice : String) : Option String × List ℕ :=
  let segments := parseSrtToSegments content
  if segments = [] then (none, [])
  else
    match selectModelConfig language voice with
    | .error _ => (generateVoiceoverSimple env content outputDir language voice, [])
    | .ok _ =>
        let (att, succ) := synthLoop env 0 segments
        if succ = [] then (none, att)
        else
          if env.mixOk then (some (outputDir ++ "/voiceover.wav"), att)
          else (none, att)

/-- `generate_voiceover` (`tts_generator.py:736-738`). -/
def generateVoiceover (env : TTSEnv) (content : List Char)
    (outputDir language voice : String) : Option String :=
  (generateVoiceoverSynchronized env content outputDir language voice).1

/-! ## Source fetcher (`src/worker/processors/downloader.py`)

Telegram, yt-dlp and instaloader transfers are oracles; successful
results carry the size of the file the oracle wrote, so non-emptiness
of a returned download is statable.  Raised exceptions are `.error`
with the source's message; yt-dlp errors carry a flag distinguishing
`DownloadError` (handled by `except YTDLPError`) from other
exceptions. -/

/-- `pathlib.Path(p).suffix`: the final `.ext` of the last path
component, empty for names with no interior dot. -/
def pySuffix (p : String) : String :=
  let name := (p.data.reverse.takeWhile (fun c => c ≠ '/')).reverse
  match name.reverse.findIdx? (fun c => c = '.') with
  | none => ""
  | some j =>
      let k := name.length - 1 - j
      if 0 < k ∧ k < name.length - 1 then ⟨name.drop k⟩ else ""

/-- Oracles for `download_from_telegram` (`downloader.py:33-59`). -/
structure TgEnv where
  /-- `bot.get_file(file_id)` giving `file.file_path`. -/
  getFile : Except String String
  /-- `bot.download_file`: on success the size of the file written. -/
  downloadFile : Except String ℕ

/-- `download_from_telegram` (`downloader.py:33-59`): on success the
written path is returned with **no size check**. -/
def downloadFromTelegram (env : TgEnv) (workDir : String) :
    Except String (String × ℕ) :=
  match env.getFile with
  | .error e => .error e
  | .ok fp =>
      let outputPath := workDir ++ "/input" ++ pySuffix fp
      match env.downloadFile with
      | .error e => .error e
      | .ok n => .ok (outputPath, n)

/-- Oracles for `download_from_instagram_instaloader`
(`downloader.py:156-293`). -/
structure InstaEnv where
  /-- `INSTALOADER_AVAILABLE`. -/
  available : Bool
  /-- `_extract_instagram_shortcode(url)`. -/
  shortcode : Option String
  /-- `Post.from_shortcode` outcome. -/
  postFetch : Except String Unit
  /-- `post.is_video`. -/
  postIsVideo : Bool
  /-- `post.video_url` present. -/
  videoUrl : Option String
  /-- Attempt `k` of the binary transfer: `.ok n` means the file was
  written with `n` bytes (a missing file is modelled as size 0, which
  the source treats identically); `.error` a raised transfer error. -/
  attempt : ℕ → Except String ℕ
  /-- `settings.INSTAGRAM_RETRIES`. -/
  retries : ℕ

/-- The retry loop of `download_from_instagram_instaloader`
(`downloader.py:245-274`): an empty written file raises inside the
per-attempt `try` and is retried like a transfer error. -/
def instaTry (env : InstaEnv) (outputPath : String) :
    ℕ → ℕ → Except String (String × ℕ)
  | _, 0 => .error "Failed to download video after max retries"
  | i, r + 1 =>
      match env.attempt i with
      | .ok n => if n ≠ 0 then .ok (outputPath, n) else instaTry env outputPath (i + 1) r
      | .error _ => instaTry env outputPath (i + 1) r

/-- `download_from_instagram_instaloader` (`downloader.py:156-293`). -/
def downloadFromInstagramInstaloader (env : InstaEnv) (workDir : String) :
    Except String (String × ℕ) :=
  if !env.available then .error "instaloader not available, cannot use fallback"
  else
    match env.shortcode with
    | none => .error "Could not extract Instagram shortcode from URL"
    | some _ =>
        match env.postFetch with
        | .error e => .error ("Failed to download via instaloader: " ++ e)
        | .ok _ =>
            if env.postIsVideo then
              match env.videoUrl with
              | none => .error "Failed to download via instaloader: Video URL not found in post"
              | some _ =>
                  match instaTry env (workDir ++ "/input.mp4") 0 env.retries with
                  | .ok r => .ok r
                  | .error e => .error ("Failed to download via instaloader: " ++ e)
            else .error "Failed to download via instaloader: Post is not a video"

/-- Python exception class of a propagating error: yt-dlp
`DownloadError` or a plain `Exception`. -/
inductive ExcKind where
  | ytdl
  | plain
  deriving DecidableEq, Repr

/-- Oracles for `download_from_url` (`downloader.py:296-485`). -/
structure UrlEnv where
  insta : InstaEnv
  /-- `source` argument (platform key). -/
  source : Option String
  /-- `ydl.extract_info(url, download=False)` outcome. -/
  extractInfo : Except String Unit
  /-- `ydl.download([url])` outcome, with the exception kind. -/
  ytdlDownload : Except (ExcKind × String) Unit
  /-- `ydl.prepare_filename(info)`. -/
  prepFilename : String
  /-- `os.path.exists` after the main download. -/
  fileExists : String → Bool
  /-- First `work_dir.glob("input.*")` hit after the main download. -/
  globInput : Option String
  /-- `os.path.getsize` after the main download. -/
  sizeOf : String → ℕ
  /-- Fallback-format run: `extract_info(url, download=True)`. -/
  fbExtract : Except String Unit
  /-- Fallback run `prepare_filename`. -/
  fbPrep : String
  /-- `os.path.exists` after the fallback run. -/
  fbExists : String → Bool
  /-- First `work_dir.glob("input.*")` hit after the fallback run. -/
  fbGlob : Option String
  /-- `os.path.getsize` after the fallback run. -/
  fbSize : String → ℕ

/-- The `extract_info` error classifier (`downloader.py:311-367`):
each branch either returns the instaloader fallback's result or raises
a user-facing message (caught again by the outer handlers). -/
def classifyExtractError (env : UrlEnv) (workDir e : String) :
    Except String (String × ℕ) :=
  let m := pyLower e
  if pyContains m "inappropriate" || pyContains m "certain audiences" ||
      pyContains m "age" || pyContains m "unavailable for certain" ||
      pyContains m "unavailable for" then
    if env.source = some "instagram" then
      if env.insta.available then
        match downloadFromInstagramInstaloader env.insta workDir with
        | .ok r => .ok r
        | .error _ => .error "Instagram ограничил доступ к этому видео (возрастные ограничения). Проверьте ссылку, используйте файл cookies или другой прокси."
      else .error "Instagram ограничил доступ к этому видео (возрастные ограничения). Проверьте ссылку или используйте файл cookies."
    else .error "Видео недоступно для анонимного просмотра (возрастные или региональные ограничения). Пожалуйста, отправьте другую ссылку."
  else if pyContains m "timeout" || pyContains m "timed out" then
    .error "Timeout while accessing platform. Please try again later."
  else if pyContains m "blocked" || pyContains m "unable to download" ||
      pyContains m "unable to extract" then
    if env.source = some "instagram" then
      if env.insta.available then
        match downloadFromInstagramInstaloader env.insta workDir with
        | .ok r => .ok r
        | .error _ => .error "Instagram video is not accessible. It may be private or require authentication. Please check the URL or try using a proxy."
      else .error "Instagram video is not accessible. It may be private or require authentication. Please check the URL or try using a proxy."
    else .error "Video is not accessible. Please check the URL."
  else
    if env.source = some "instagram" ∧ env.insta.available then
      match downloadFromInstagramInstaloader env.insta workDir with
      | .ok r => .ok r
      | .error _ => .error ("Failed to access video: " ++ e)
    else .error ("Failed to access video: " ++ e)

/-- The body of the outer `try` of `download_from_url`
(`downloader.py:305-400`): info extraction (errors classified, possibly
answered by the fallback), the download, filename resolution via glob,
and the zero-size check. -/
def urlMainBody (env : UrlEnv) (workDir : String) :
    Except (ExcKind × String) (String × ℕ) :=
  match env.extractInfo with
  | .error e =>
      match classifyExtractError env workDir e with
      | .ok r => .ok r
      | .error msg => .error (.plain, msg)
  | .ok _ =>
      match env.ytdlDownload with
      | .error err => .error err
      | .ok _ =>
          let filename :=
            if env.fileExists env.prepFilename then some env.prepFilename
            else env.globInput
          match filename with
          | none => .error (.plain, "Downloaded file not found: " ++ env.prepFilename)
          | some f =>
              let fileSize := env.sizeOf f
              if fileSize = 0 then .error (.plain, "Downloaded file is empty: " ++ f)
              else .ok (f, fileSize)

/-- The `except YTDLPError` handler (`downloader.py:402-459`). -/
def ytdlHandler (env : UrlEnv) (workDir msg : String) :
    Except String (String × ℕ) :=
  let m := pyLower msg
  if pyContains m "format" || pyContains m "codec" then
    match env.fbExtract with
    | .error e => .error ("Failed to download video after fallback: " ++ e)
    | .ok _ =>
        let fname :=
          if env.fbExists env.fbPrep then env.fbPrep
          else match env.fbGlob with
            | some f => f
            | none => env.fbPrep
        let fileSize := if env.fbExists fname then env.fbSize fname else 0
        if fileSize = 0 then
          .error ("Failed to download video after fallback: Downloaded file is empty: " ++ fname)
        else .ok (fname, fileSize)
  else if pyContains m "timeout" || pyContains m "timed out" then
    .error "Download timeout. Platform may be slow or unavailable. Please try again later."
  else if pyContains m "inappropriate" || pyContains m "certain audiences" ||
      pyContains m "age" then
    if env.source = some "instagram" ∧ env.insta.available then
      match downloadFromInstagramInstaloader env.insta workDir with
      | .ok r => .ok r
      | .error _ => .error "Instagram ограничил доступ к этому видео (возрастные ограничения). Проверьте ссылку, используйте файл cookies или другой прокси."
    else .error "Видео недоступно для анонимного просмотра (возрастные или региональные ограничения). Пожалуйста, отправьте другую ссылку."
  else if pyContains m "instagram" &&
      (pyContains m "blocked" || pyContains m "unable" || pyContains m "unable to extract") then
    if env.source = some "instagram" ∧ env.insta.available then
      match downloadFromInstagramInstaloader env.insta workDir with
      | .ok r => .ok r
      | .error e => .error ("Instagram video is not accessible. yt-dlp and instaloader both failed. Error: " ++ e)
    else .error "Instagram video is not accessible. It may be private or require authentication."
  else .error ("Failed to download video: " ++ msg)

/-- The final `except Exception` handler (`downloader.py:461-485`). -/
def plainHandler (env : UrlEnv) (workDir msg : String) :
    Except String (String × ℕ) :=
  let m := pyLower msg
  let kwHit := pyContains m "unable to extract" || pyContains m "unable to download" ||
    pyContains m "inappropriate" || pyContains m "certain audiences" ||
    pyContains m "age" || pyContains m "unavailable for certain" ||
    pyContains m "unavailable for" || pyContains m "instagram"
  let rewrap :=
    if !pyStartsWith msg "Failed" ∧ !pyStartsWith msg "Timeout" ∧
        !pyStartsWith msg "Instagram" ∧ !pyStartsWith msg "Video" then
      "Failed to download video: " ++ msg
    else msg
  if env.source = some "instagram" ∧ env.insta.available ∧ kwHit then
    match downloadFromInstagramInstaloader env.insta workDir with
    | .ok r => .ok r
    | .error _ =>
        if pyContains m "inappropriate" || pyContains m "certain audiences" then
          .error "Instagram ограничил доступ к этому видео (возрастные ограничения). Проверьте ссылку, используйте файл cookies или другой прокси."
        else .error ("Failed to download video: " ++ msg)
  else .error rewrap

/-- `download_from_url` (`downloader.py:296-485`): the main body with
its two exception handlers. -/
def downloadFromUrl (env : UrlEnv) (workDir : String) :
    Except String (String × ℕ) :=
  match urlMainBody env workDir with
  | .ok r => .ok r
  | .error (.ytdl, msg) => ytdlHandler env workDir msg
  | .error (.plain, msg) => plainHandler env workDir msg

/-- The task-input dispatch of `download_video` (`downloader.py:22-30`). -/
def downloadVideo (tg : TgEnv) (url : UrlEnv) (inputType : String)
    (workDir : String) : Except String (String × ℕ) :=
  if inputType = "file" then downloadFromTelegram tg workDir
  else downloadFromUrl url workDir

/-! ## Job orchestrator (`src/worker/tasks.py`)

`process_video_task` threads a task record through the five stages,
persisting status through `update_task_status_sync`
(`src/db/crud.py:220-236`), which unconditionally overwrites the given
fields and commits (modelled as a pure record update).  Status updates
to the chat (`send_status_update`) and the terminal notification
(`send_result_to_user`) swallow all of their own exceptions
(`src/worker/notifier.py:16-40, 83-98`) and do not touch the task
record, so they are no-ops here.  Each stage call is an oracle whose
`.error` models an exception propagating out of the stage. -/

/-- `TaskStatus` (`src/config/constants.py`). -/
inductive TaskStatus where
  | created
  | pending
  | processing
  | completed
  | failed
  | cancelled
  deriving DecidableEq, Repr

/-- The task options read by `process_video_task`. -/
structure TaskRec where
  generateSubtitles : Bool
  translateOpt : Bool
  voiceoverOpt : Bool
  verticalFormat : Bool
  addWatermark : Bool
  sourceLanguage : Option String
  targetLanguage : Option String
  deriving DecidableEq, Repr

/-- The persisted task row fields that `process_video_task` updates. -/
structure DbTask where
  status : TaskStatus
  errorMessage : Option String
  inputFilePath : Option String
  outputFilePath : Option String
  subtitlesFilePath : Option String
  sourceLanguage : Option String
  deriving DecidableEq, Repr

/-- The five pipeline stages. -/
inductive PStage where
  | download
  | transcribe
  | translate
  | voiceover
  | compose
  deriving DecidableEq, Repr

/-- Oracles for a `process_video_task` run: the task fetch and each
stage's outcome. -/
structure OrchEnv where
  /-- `get_task_sync`: `none` models a missing row. -/
  task : Option TaskRec
  /-- Stage 1, `download_video`: `.ok` carries the returned path. -/
  download : Except String String
  /-- `os.path.exists` on the downloaded path. -/
  pathExists : String → Bool
  /-- Stage 2, `transcribe_audio`: `.ok` carries
  `(subtitles_path, detected_language)`; the detected language is
  `none` when the recognizer reports `None`. -/
  transcribe : Except String (String × Option String)
  /-- Stage 3, `translate_subtitles`: `.ok` carries the returned path
  (the function itself never raises, but the call site would propagate
  if it did). -/
  translateStage : Except String String
  /-- Stage 4, `generate_voiceover`: `.ok none` models a synthesis
  that produced no voice track. -/
  voiceoverStage : Except String (Option String)
  /-- Stage 5, `process_video_with_subtitles`: `.ok` carries the
  output path. -/
  compose : Except String String

/-- The `except` block of `process_video_task`
(`tasks.py:182-199`): record `failed` with the message. -/
def failTask (db : DbTask) (msg : String) : DbTask :=
  { db with status := TaskStatus.failed, errorMessage := some msg }

/-- `not task.source_language in (None, "", "auto")` resolution of the
no-transcription branch (`tasks.py:99`). -/
def resolvedDetected (t : TaskRec) : Option String :=
  match t.sourceLanguage with
  | none => none
  | some s => if s = "" ∨ s = "auto" then none else some s

/-- Stage 2 of `process_video_task` (`tasks.py:75-99`): transcription
when requested, recording a freshly detected language; `.error`
carries the terminal result of a failed run. -/
def orchStage2 (env : OrchEnv) (task : TaskRec) (db2 : DbTask) :
    Except (DbTask × List PStage)
      (DbTask × Option String × Option String × List PStage) :=
  if task.generateSubtitles then
    match env.transcribe with
    | .error e =>
        .error (failTask db2 e, [PStage.download, PStage.transcribe])
    | .ok (subsPath, detected) =>
        let db3 :=
          match detected with
          | some d =>
              if d ≠ "" ∧ some d ≠ task.sourceLanguage then
                { db2 with sourceLanguage := some d }
              else db2
          | none => db2
        .ok (db3, some subsPath, detected, [PStage.download, PStage.transcribe])
  else
    .ok (db2, none, resolvedDetected task, [PStage.download])

/-- Stage 3 of `process_video_task` (`tasks.py:101-115`): translation
when requested and captions exist. -/
def orchStage3 (env : OrchEnv) (task : TaskRec) (db3 : DbTask)
    (subsPath2 : Option String) (trace2 : List PStage) :
    Except (DbTask × List PStage) (Option String × List PStage) :=
  if task.translateOpt ∧ subsPath2.isSome then
    match env.translateStage with
    | .error e => .error (failTask db3 e, trace2 ++ [PStage.translate])
    | .ok p => .ok (some p, trace2 ++ [PStage.translate])
  else .ok (subsPath2, trace2)

/-- Stage 4 of `process_video_task` (`tasks.py:117-138`): voiceover
when requested and captions exist. -/
def orchStage4 (env : OrchEnv) (task : TaskRec) (db3 : DbTask)
    (subsPath3 : Option String) (trace3 : List PStage) :
    Except (DbTask × List PStage) (Option String × List PStage) :=
  if task.voiceoverOpt ∧ subsPath3.isSome then
    match env.voiceoverStage with
    | .error e => .error (failTask db3 e, trace3 ++ [PStage.voiceover])
    | .ok vp => .ok (vp, trace3 ++ [PStage.voiceover])
  else .ok (none, trace3)

/-- `process_video_task` (`tasks.py:21-201`): returns the final task
row together with the list of stages that were executed. -/
def processVideoTask (env : OrchEnv) (db0 : DbTask) : DbTask × List PStage :=
  match env.task with
  | none => (db0, [])
  | some task =>
      let db1 : DbTask := { db0 with status := TaskStatus.processing }
      match env.download with
      | .error e => (failTask db1 e, [PStage.download])
      | .ok inputPath =>
          if inputPath = "" ∨ !env.pathExists inputPath then
            (failTask db1 "Failed to download video", [PStage.download])
          else
            let db2 : DbTask := { db1 with inputFilePath := some inputPath }
            match orchStage2 env task db2 with
            | .error r => r
            | .ok (db3, subsPath2, _detected, trace2) =>
                match orchStage3 env task db3 subsPath2 trace2 with
                | .error r => r
                | .ok (subsPath3, trace3) =>
                    match orchStage4 env task db3 subsPath3 trace3 with
                    | .error r => r
                    | .ok (_voicePath, trace4) =>
                        -- Stage 5: composition (always runs)
                        match env.compose with
                        | .error e =>
                            (failTask db3 e, trace4 ++ [PStage.compose])
                        | .ok outPath =>
                            ({ db3 with
                                status := TaskStatus.completed
                                outputFilePath := some outPath
                                subtitlesFilePath := subsPath3 },
                              trace4 ++ [PStage.compose])

/-- The subtitle artifact path the pipeline carries into the final
update, recomputed from the oracles (used to state that the completed
row records the subtitle path). -/
def pipelineSubtitles (env : OrchEnv) (t : TaskRec) : Option String :=
  if t.generateSubtitles then
    match env.transcribe with
    | .error _ => none
    | .ok (p, _) =>
        if t.translateOpt then
          match env.translateStage with
          | .error _ => none
          | .ok p' => some p'
        else some p
  else none

/-! ## Theorems: subtitle translator (claims C2, C3, C10) -/

theorem normalizeLangCode_mem (s : String) :
    normalizeLangCode s ∈ (["en", "ru", "es", "fr", "de", "it"] : List String) := by
  unfold normalizeLangCode lookupAlias
  split
  · simp
  · dsimp only
    split
    · next c heq => split_ifs at heq <;> simp_all
    · split
      · next c heq => split_ifs at heq <;> simp_all
      · simp

theorem normalizeLangCode_default (s : String)
    (h1 : pyLower s ∉ (["en", "ru", "es", "fr", "de", "it"] : List String))
    (h2 : pyTake (pyLower s) 2 ∉ (["en", "ru", "es", "fr", "de", "it"] : List String)) :
    normalizeLangCode s = "en" := by
  simp only [List.mem_cons, List.not_mem_nil, or_false, not_or] at h1 h2
  unfold normalizeLangCode lookupAlias
  split
  · rfl
  · dsimp only
    simp [h1.1, h1.2.1, h1.2.2.1, h1.2.2.2.1, h1.2.2.2.2.1, h1.2.2.2.2.2,
      h2.1, h2.2.1, h2.2.2.1, h2.2.2.2.1, h2.2.2.2.2.1, h2.2.2.2.2.2]

theorem translateSubtitles_shortCircuit (env : TransEnv) (content : List Char)
    (srtPath outputDir targetLanguage : String) (sourceLanguage : Option String)
    (h : resolveSourceLang env (parseSrt content) sourceLanguage =
      normalizeLangCode targetLanguage) :
    translateSubtitles env content srtPath outputDir targetLanguage sourceLanguage
      = ⟨srtPath, []⟩ := by
  unfold translateSubtitles
  dsimp only
  by_cases hsub : parseSrt content = []
  · rw [if_pos hsub]
  · rw [if_neg hsub, if_pos h]

theorem translateWithMarian_none (env : TransEnv) (texts : List String)
    (src tgt : String) : translateWithMarian env texts src tgt = none := by
  unfold translateWithMarian marianModelFor MARIAN_MODELS
  simp [List.find?]

theorem translateBatch_unavailable (env : TransEnv)
    (hpkg : ∀ a b, env.packageAvailable a b = false)
    (texts : List String) (src tgt : String)
    (hst : src ≠ tgt) (hne : texts ≠ []) :
    translateBatch env texts src tgt = none := by
  unfold translateBatch
  rw [if_neg hst, if_neg hne, translateWithMarian_none]
  have hpk : ensureLanguagePackage env src tgt = false := by
    unfold ensureLanguagePackage marianModelFor MARIAN_MODELS
    simp [List.find?, hpkg]
  simp [hpk]

theorem translateSubtitles_allFail (env : TransEnv) (content : List Char)
    (srtPath outputDir targetLanguage : String) (sourceLanguage : Option String)
    (hpkg : ∀ a b, env.packageAvailable a b = false) :
    translateSubtitles env content srtPath outputDir targetLanguage sourceLanguage
      = ⟨srtPath, []⟩ := by
  unfold translateSubtitles
  dsimp only
  by_cases hsub : parseSrt content = []
  · rw [if_pos hsub]
  · rw [if_neg hsub]
    by_cases hst : resolveSourceLang env (parseSrt content) sourceLanguage =
        normalizeLangCode targetLanguage
    · rw [if_pos hst]
    · rw [if_neg hst]
      have htne : (parseSrt content).map (fun e => String.mk e.text) ≠ [] := by
        simpa using hsub
      rw [translateBatch_unavailable env hpkg _ _ _ hst htne]
      by_cases hpiv : resolveSourceLang env (parseSrt content) sourceLanguage ≠ PIVOT_LANGUAGE ∧
          normalizeLangCode targetLanguage ≠ PIVOT_LANGUAGE
      · rw [if_pos hpiv, translateBatch_unavailable env hpkg _ _ _ hpiv.1 htne]
      · rw [if_neg hpiv]

theorem translateSubtitles_path (env : TransEnv) (content : List Char)
    (srtPath outputDir targetLanguage : String) (sourceLanguage : Option String) :
    (translateSubtitles env content srtPath outputDir targetLanguage sourceLanguage).path
        = srtPath ∨
      ∃ c, ((translateSubtitles env content srtPath outputDir targetLanguage sourceLanguage).path, c)
        ∈ (translateSubtitles env content srtPath outputDir targetLanguage sourceLanguage).writes := by
  unfold translateSubtitles
  dsimp only
  by_cases hsub : parseSrt content = []
  · rw [if_pos hsub]; left; rfl
  · rw [if_neg hsub]
    by_cases hst : resolveSourceLang env (parseSrt content) sourceLanguage =
        normalizeLangCode targetLanguage
    · rw [if_pos hst]; left; rfl
    · rw [if_neg hst]
      split
      · left; rfl
      · next ts heq =>
        by_cases hw : env.writeOk
        · rw [if_pos hw]
          exact Or.inr ⟨serializeSubs (applyTexts (parseSrt content) ts), by simp⟩
        · rw [if_neg hw]; left; rfl

/-- C2: for every environment (hence for every input caption file,
target and source language), `translate_subtitles` returns — it is a
total function of its oracles: every exception site of the Python
source is absorbed by a handler — and the returned path is either the
original input path or a file it has just written; and when no Argos
language package can be installed for any pair (the direct MarianMT
path is always unavailable because `MARIAN_MODELS` is the empty dict,
and the pivot chain degenerates with it), it returns exactly the
original path with no file written: the captions stay untranslated. -/
theorem claim_C2_translate_never_fails (env : TransEnv) (content : List Char)
    (srtPath outputDir targetLanguage : String) (sourceLanguage : Option String) :
    ((translateSubtitles env content srtPath outputDir targetLanguage sourceLanguage).path
        = srtPath ∨
      ∃ c, ((translateSubtitles env content srtPath outputDir targetLanguage sourceLanguage).path, c)
        ∈ (translateSubtitles env content srtPath outputDir targetLanguage sourceLanguage).writes) ∧
    ((∀ a b, env.packageAvailable a b = false) →
      translateSubtitles env content srtPath outputDir targetLanguage sourceLanguage
        = ⟨srtPath, []⟩) :=
  ⟨translateSubtitles_path env content srtPath outputDir targetLanguage sourceLanguage,
   fun hpkg => translateSubtitles_allFail env content srtPath outputDir targetLanguage
     sourceLanguage hpkg⟩

theorem claim_C2_witness :
    (∀ a b, (⟨fun _ => none, fun _ _ => false, fun t _ _ => Except.ok t,
        fun _ _ => none, true⟩ : TransEnv).packageAvailable a b = false) ∧
    translateSubtitles ⟨fun _ => none, fun _ _ => false, fun t _ _ => Except.ok t,
        fun _ _ => none, true⟩
      "1\n00:00:00,000 --> 00:00:01,000\nHello\n\n".data "in.srt" "work" "ru" (some "en")
      = ⟨"in.srt", []⟩ :=
  ⟨fun _ _ => rfl,
   (claim_C2_translate_never_fails _ _ "in.srt" "work" "ru" (some "en")).2
     (fun _ _ => rfl)⟩

/-- C3: when the resolved source language (the given one, or the
normalized detected one when the given source is absent or `"auto"`)
equals the normalized target language, `translate_subtitles` returns
exactly the original input path and writes no file — no segment text
is altered. -/
theorem claim_C3_translate_noop (env : TransEnv) (content : List Char)
    (srtPath outputDir targetLanguage : String) (sourceLanguage : Option String)
    (h : resolveSourceLang env (parseSrt content) sourceLanguage =
      normalizeLangCode targetLanguage) :
    translateSubtitles env content srtPath outputDir targetLanguage sourceLanguage
      = ⟨srtPath, []⟩ :=
  translateSubtitles_shortCircuit env content srtPath outputDir targetLanguage
    sourceLanguage h

theorem claim_C3_witness :
    resolveSourceLang ⟨fun _ => none, fun _ _ => true, fun t _ _ => Except.ok t,
        fun _ _ => none, true⟩
      (parseSrt "1\n00:00:00,000 --> 00:00:01,000\nHello\n\n".data) (some "en")
      = normalizeLangCode "EN" ∧
    translateSubtitles ⟨fun _ => none, fun _ _ => true, fun t _ _ => Except.ok t,
        fun _ _ => none, true⟩
      "1\n00:00:00,000 --> 00:00:01,000\nHello\n\n".data "in.srt" "work" "EN" (some "en")
      = ⟨"in.srt", []⟩ :=
  ⟨by decide,
   claim_C3_translate_noop _ _ "in.srt" "work" "EN" (some "en") (by decide)⟩

/-- C10: `_normalize_lang_code` always lands in the closed code set
{en, ru, es, fr, de, it}; when neither the lowercased input nor its
first two characters is in the set (including the empty string), it
returns `"en"`; consequently a translation request whose target is
outside the set is treated as a request for English and, when the
resolved source language is English, short-circuits to the unmodified
original file. -/
theorem claim_C10_normalize_total (s : String) (env : TransEnv) (content : List Char)
    (srtPath outputDir targetLanguage : String) (sourceLanguage : Option String) :
    normalizeLangCode s ∈ (["en", "ru", "es", "fr", "de", "it"] : List String) ∧
    ((pyLower s ∉ (["en", "ru", "es", "fr", "de", "it"] : List String) ∧
      pyTake (pyLower s) 2 ∉ (["en", "ru", "es", "fr", "de", "it"] : List String)) →
      normalizeLangCode s = "en") ∧
    ((pyLower targetLanguage ∉ (["en", "ru", "es", "fr", "de", "it"] : List String) ∧
      pyTake (pyLower targetLanguage) 2 ∉ (["en", "ru", "es", "fr", "de", "it"] : List String)) →
      resolveSourceLang env (parseSrt content) sourceLanguage = "en" →
      translateSubtitles env content srtPath outputDir targetLanguage sourceLanguage
        = ⟨srtPath, []⟩) :=
  ⟨normalizeLangCode_mem s,
   fun h => normalizeLangCode_default s h.1 h.2,
   fun ht hsrc =>
     translateSubtitles_shortCircuit env content srtPath outputDir targetLanguage
       sourceLanguage
       (by rw [hsrc, normalizeLangCode_default targetLanguage ht.1 ht.2])⟩

theorem claim_C10_witness :
    (pyLower "xx" ∉ (["en", "ru", "es", "fr", "de", "it"] : List String) ∧
      pyTake (pyLower "xx") 2 ∉ (["en", "ru", "es", "fr", "de", "it"] : List String)) ∧
    normalizeLangCode "xx" = "en" ∧
    translateSubtitles ⟨fun _ => none, fun _ _ => true, fun t _ _ => Except.ok t,
        fun _ _ => none, true⟩
      "1\n00:00:00,000 --> 00:00:01,000\nHello\n\n".data "in.srt" "work" "xx" (some "en")
      = ⟨"in.srt", []⟩ :=
  ⟨by decide,
   (claim_C10_normalize_total "xx" ⟨fun _ => none, fun _ _ => true, fun t _ _ => Except.ok t,
      fun _ _ => none, true⟩ "1\n00:00:00,000 --> 00:00:01,000\nHello\n\n".data
      "in.srt" "work" "xx" (some "en")).2.1 (by decide),
   (claim_C10_normalize_total "xx" ⟨fun _ => none, fun _ _ => true, fun t _ _ => Except.ok t,
      fun _ _ => none, true⟩ "1\n00:00:00,000 --> 00:00:01,000\nHello\n\n".data
      "in.srt" "work" "xx" (some "en")).2.2 (by decide) (by decide)⟩


/-! ## Theorems: video compositor (claims C6, C7) -/

theorem runVFilters_nil (d : ℕ × ℕ) : runVFilters [] d = some d := rfl

theorem runVFilters_cons (f : VFilter) (fs : List VFilter) (d : ℕ × ℕ) :
    runVFilters (f :: fs) d =
      match applyVFilter d f with
      | none => none
      | some d' => runVFilters fs d' := by
  simp only [runVFilters, List.foldlM]
  cases applyVFilter d f <;> rfl

theorem runVFilters_tail (subs wm : Bool) (d : ℕ × ℕ) :
    runVFilters ((if subs then [VFilter.subtitleBurn] else []) ++
      (if wm then [VFilter.watermark] else [])) d = some d := by
  cases subs <;> cases wm <;>
    simp [runVFilters_cons, runVFilters_nil, applyVFilter]

/-- C7: the ffmpeg invocation contract of `process_video_with_subtitles`:
a non-zero exit code raises with the error stream truncated to 500
characters in the message; a missing output file raises naming the
output path; a path is returned only when the output file exists (and
it is the output path). -/
theorem claim_C7_ffmpeg_failures (env : FfmpegEnv) (outputDir : String)
    (vertical watermark subtitlesPresent : Bool) :
    (env.returncode ≠ 0 →
      processVideoWithSubtitles env outputDir vertical watermark subtitlesPresent =
        .error ("ffmpeg failed with code " ++ toString env.returncode ++ ": " ++
          pyTake env.stderrOutput 500)) ∧
    (env.returncode = 0 → env.outputExists = false →
      processVideoWithSubtitles env outputDir vertical watermark subtitlesPresent =
        .error ("Output file was not created: " ++ (outputDir ++ "/output.mp4"))) ∧
    (∀ p fs, processVideoWithSubtitles env outputDir vertical watermark subtitlesPresent
        = .ok (p, fs) →
      env.outputExists = true ∧ p = outputDir ++ "/output.mp4") := by
  refine ⟨fun hrc => ?_, fun hrc hex => ?_, fun p fs hok => ?_⟩
  · unfold processVideoWithSubtitles
    rw [if_pos hrc]
  · unfold processVideoWithSubtitles
    rw [if_neg (by simp [hrc]), if_pos (by simp [hex])]
  · unfold processVideoWithSubtitles at hok
    by_cases hrc : env.returncode ≠ 0
    · rw [if_pos hrc] at hok; exact absurd hok (by simp)
    · rw [if_neg hrc] at hok
      by_cases hex : env.outputExists
      · rw [if_neg (by simp [hex])] at hok
        simp at hok
        exact ⟨hex, hok.1.symm⟩
      · rw [if_pos (by simpa using hex)] at hok
        exact absurd hok (by simp)

theorem claim_C7_witness :
    ((⟨none, 1, "boom", false⟩ : FfmpegEnv).returncode ≠ 0) ∧
    processVideoWithSubtitles ⟨none, 1, "boom", false⟩ "work" false false false =
      .error ("ffmpeg failed with code " ++ toString (1 : ℤ) ++ ": " ++
        pyTake "boom" 500) :=
  ⟨by decide,
   (claim_C7_ffmpeg_failures ⟨none, 1, "boom", false⟩ "work" false false false).1
     (by decide)⟩

theorem nat_div_le_of_le_mul {a b k : ℕ} (h : a ≤ k * b) : a / b ≤ k := by
  rcases Nat.eq_zero_or_pos b with hb | hb
  · subst hb; simp
  · exact Nat.lt_succ_iff.mp ((Nat.div_lt_iff_lt_mul hb).2 (by nlinarith))

theorem runVFilters_append (fs gs : List VFilter) (d : ℕ × ℕ) :
    runVFilters (fs ++ gs) d =
      match runVFilters fs d with
      | none => none
      | some d' => runVFilters gs d' := by
  induction fs generalizing d with
  | nil => simp [runVFilters_nil]
  | cons f fs ih =>
      rw [List.cons_append, runVFilters_cons, runVFilters_cons]
      cases applyVFilter d f with
      | none => rfl
      | some d' => exact ih d'

theorem runVFilters_cons_of {f : VFilter} {fs : List VFilter} {d d' : ℕ × ℕ}
    (h : applyVFilter d f = some d') :
    runVFilters (f :: fs) d = runVFilters fs d' := by
  rw [runVFilters_cons, h]

theorem buildVertical_measured (w h : ℕ) (hw : 1 ≤ w) (hh : 2 ≤ h) :
    runVFilters (buildVerticalFilters (some (w, h))) (w, h) = some (1080, 1920) := by
  unfold buildVerticalFilters
  dsimp only
  by_cases hwide : 16 * w > 9 * h
  · rw [if_pos hwide]
    simp only [List.cons_append, List.nil_append]
    have hcw1 : 1 ≤ 9 * h / 16 := (Nat.one_le_div_iff (by norm_num)).2 (by omega)
    have hcwlt : 9 * h / 16 < w := (Nat.div_lt_iff_lt_mul (by norm_num)).2 (by omega)
    have happ : applyVFilter (w, h) (VFilter.crop (9 * h / 16) h ((w - 9 * h / 16) / 2) 0)
        = some (9 * h / 16, h) := by
      simp only [applyVFilter]
      rw [if_pos ⟨hcw1, by omega, by omega, by omega⟩]
    rw [runVFilters_cons_of happ]
    have hle : (9 * h / 16) * 1920 ≤ 1080 * h := by
      calc (9 * h / 16) * 1920 = ((9 * h / 16) * 16) * 120 := by ring
        _ ≤ (9 * h) * 120 := Nat.mul_le_mul_right _ (Nat.div_mul_le_self _ _)
        _ = 1080 * h := by ring
    have happ2 : applyVFilter (9 * h / 16, h) (VFilter.scaleFit 1080 1920)
        = some (max 1 ((9 * h / 16) * 1920 / h), 1920) := by
      simp only [applyVFilter]
      rw [if_pos ⟨by omega, by omega⟩, if_pos (by omega : 9 * h / 16 * 1920 ≤ h * 1080)]
    rw [runVFilters_cons_of happ2]
    have hb : (9 * h / 16) * 1920 / h ≤ 1080 := nat_div_le_of_le_mul hle
    have happ3 : applyVFilter (max 1 ((9 * h / 16) * 1920 / h), 1920) (VFilter.pad 1080 1920)
        = some (1080, 1920) := by
      simp only [applyVFilter]
      rw [if_pos ⟨max_le (by norm_num) hb, le_refl _⟩]
    rw [runVFilters_cons_of happ3, runVFilters_nil]
  · by_cases htall : 16 * w < 9 * h
    · rw [if_neg hwide, if_pos htall]
      simp only [List.cons_append, List.nil_append]
      have hch1 : 1 ≤ 16 * w / 9 := (Nat.one_le_div_iff (by norm_num)).2 (by omega)
      have hchlt : 16 * w / 9 < h := (Nat.div_lt_iff_lt_mul (by norm_num)).2 (by omega)
      have happ : applyVFilter (w, h) (VFilter.crop w (16 * w / 9) 0 ((h - 16 * w / 9) / 2))
          = some (w, 16 * w / 9) := by
        simp only [applyVFilter]
        rw [if_pos ⟨by omega, hch1, by omega, by omega⟩]
      rw [runVFilters_cons_of happ]
      have hle2 : (16 * w / 9) * 1080 ≤ 1920 * w := by
        calc (16 * w / 9) * 1080 = ((16 * w / 9) * 9) * 120 := by ring
          _ ≤ (16 * w) * 120 := Nat.mul_le_mul_right _ (Nat.div_mul_le_self _ _)
          _ = 1920 * w := by ring
      by_cases hcond : w * 1920 ≤ (16 * w / 9) * 1080
      · have happ2 : applyVFilter (w, 16 * w / 9) (VFilter.scaleFit 1080 1920)
            = some (max 1 (w * 1920 / (16 * w / 9)), 1920) := by
          simp only [applyVFilter]
          rw [if_pos ⟨by omega, by omega⟩, if_pos (by omega : w * 1920 ≤ 16 * w / 9 * 1080)]
        rw [runVFilters_cons_of happ2]
        have hb : w * 1920 / (16 * w / 9) ≤ 1080 :=
          nat_div_le_of_le_mul (by omega : w * 1920 ≤ 1080 * (16 * w / 9))
        have happ3 : applyVFilter (max 1 (w * 1920 / (16 * w / 9)), 1920)
            (VFilter.pad 1080 1920) = some (1080, 1920) := by
          simp only [applyVFilter]
          rw [if_pos ⟨max_le (by norm_num) hb, le_refl _⟩]
        rw [runVFilters_cons_of happ3, runVFilters_nil]
      · have happ2 : applyVFilter (w, 16 * w / 9) (VFilter.scaleFit 1080 1920)
            = some (1080, max 1 ((16 * w / 9) * 1080 / w)) := by
          simp only [applyVFilter]
          rw [if_pos ⟨by omega, by omega⟩, if_neg (by omega : ¬ w * 1920 ≤ 16 * w / 9 * 1080)]
        rw [runVFilters_cons_of happ2]
        have hb : (16 * w / 9) * 1080 / w ≤ 1920 :=
          nat_div_le_of_le_mul (by omega : 16 * w / 9 * 1080 ≤ 1920 * w)
        have happ3 : applyVFilter (1080, max 1 ((16 * w / 9) * 1080 / w))
            (VFilter.pad 1080 1920) = some (1080, 1920) := by
          simp only [applyVFilter]
          rw [if_pos ⟨le_refl _, max_le (by norm_num) hb⟩]
        rw [runVFilters_cons_of happ3, runVFilters_nil]
    · rw [if_neg hwide, if_neg htall]
      simp only [List.nil_append]
      have heq : 16 * w = 9 * h := by omega
      have hle : w * 1920 ≤ h * 1080 := by omega
      have happ2 : applyVFilter (w, h) (VFilter.scaleFit 1080 1920)
          = some (max 1 (w * 1920 / h), 1920) := by
        simp only [applyVFilter]
        rw [if_pos ⟨by omega, by omega⟩, if_pos hle]
      rw [runVFilters_cons_of happ2]
      have hb : w * 1920 / h ≤ 1080 := nat_div_le_of_le_mul (by omega)
      have happ3 : applyVFilter (max 1 (w * 1920 / h), 1920) (VFilter.pad 1080 1920)
          = some (1080, 1920) := by
        simp only [applyVFilter]
        rw [if_pos ⟨max_le (by norm_num) hb, le_refl _⟩]
      rw [runVFilters_cons_of happ3, runVFilters_nil]

theorem runVFilters_append_of {fs gs : List VFilter} {d d' : ℕ × ℕ}
    (h : runVFilters fs d = some d') :
    runVFilters (fs ++ gs) d = runVFilters gs d' := by
  rw [runVFilters_append, h]

/-- C6: with vertical reframing requested, the filter chain built by
`process_video_with_subtitles` yields a 1080×1920 canvas on the
measured dimensions (any aspect ratio with `w ≥ 1`, `h ≥ 2`, so the
computed crop window is non-degenerate), every crop it emits is
centered with offsets `(w-newW)//2` resp. `(h-newH)//2`, and in the
unmeasured fallback every successful run of the chain also ends at
exactly 1080×1920. -/
theorem claim_C6_vertical_canvas (w h : ℕ) (subs wm : Bool) (hw : 1 ≤ w) (hh : 2 ≤ h) :
    runVFilters (buildVideoFilters (some (w, h)) true subs wm) (w, h)
        = some (1080, 1920) ∧
    (∀ f ∈ buildVideoFilters (some (w, h)) true subs wm, ∀ cw ch x y,
      f = VFilter.crop cw ch x y →
      (x = (w - cw) / 2 ∧ y = 0) ∨ (x = 0 ∧ y = (h - ch) / 2)) ∧
    (∀ W H d, runVFilters (buildVideoFilters none true subs wm) (W, H) = some d →
      d = (1080, 1920)) := by
  refine ⟨?_, ?_, ?_⟩
  · unfold buildVideoFilters
    rw [if_pos rfl, List.append_assoc,
      runVFilters_append_of (buildVertical_measured w h hw hh)]
    exact runVFilters_tail subs wm _
  · intro f hf cw ch x y heq
    subst heq
    unfold buildVideoFilters buildVerticalFilters at hf
    dsimp only at hf
    rw [if_pos rfl] at hf
    by_cases hwide : 16 * w > 9 * h
    · rw [if_pos hwide] at hf
      cases subs <;> cases wm <;> simp at hf <;>
        exact Or.inl ⟨by omega, by omega⟩
    · by_cases htall : 16 * w < 9 * h
      · rw [if_neg hwide, if_pos htall] at hf
        cases subs <;> cases wm <;> simp at hf <;>
          exact Or.inr ⟨by omega, by omega⟩
      · rw [if_neg hwide, if_neg htall] at hf
        cases subs <;> cases wm <;> simp at hf
  · intro W H d hd
    unfold buildVideoFilters buildVerticalFilters at hd
    dsimp only at hd
    rw [if_pos rfl] at hd
    simp only [List.cons_append, List.nil_append] at hd
    rw [runVFilters_cons] at hd
    cases happ : applyVFilter (W, H) VFilter.cropFallback with
    | none => rw [happ] at hd; exact absurd hd (by simp)
    | some d1 =>
        rw [happ] at hd
        dsimp only at hd
        rw [runVFilters_cons] at hd
        by_cases hpos : 0 < d1.1 ∧ 0 < d1.2
        · have happ2 : applyVFilter d1 (VFilter.scaleExact 1080 1920)
              = some (1080, 1920) := by
            simp only [applyVFilter]
            rw [if_pos hpos]
          rw [happ2] at hd
          dsimp only at hd
          rw [runVFilters_tail] at hd
          exact (Option.some_inj.mp hd).symm
        · have happ2 : applyVFilter d1 (VFilter.scaleExact 1080 1920) = none := by
            simp only [applyVFilter]
            rw [if_neg hpos]
          rw [happ2] at hd
          exact absurd hd (by simp)

theorem claim_C6_witness :
    (1 ≤ 1920 ∧ 2 ≤ 1080) ∧
    runVFilters (buildVideoFilters (some (1920, 1080)) true true true) (1920, 1080)
      = some (1080, 1920) :=
  ⟨⟨by decide, by decide⟩,
   (claim_C6_vertical_canvas 1920 1080 true true (by decide) (by decide)).1⟩


/-! ## Theorems: source fetcher (claim C9) -/

theorem instaTry_ok {env : InstaEnv} {outputPath p : String} {n : ℕ} :
    ∀ i r, instaTry env outputPath i r = .ok (p, n) → n ≠ 0 := by
  intro i r
  induction r generalizing i with
  | zero => intro h; exact absurd h (by simp [instaTry])
  | succ r ih =>
      intro h
      unfold instaTry at h
      cases hat : env.attempt i with
      | ok m =>
          rw [hat] at h
          dsimp only at h
          by_cases hm : m ≠ 0
          · rw [if_pos hm] at h
            simp only [Except.ok.injEq, Prod.mk.injEq] at h
            omega
          · rw [if_neg hm] at h
            exact ih _ h
      | error e =>
          rw [hat] at h
          dsimp only at h
          exact ih _ h

theorem downloadFromInstagramInstaloader_ok {env : InstaEnv} {workDir p : String}
    {n : ℕ} (h : downloadFromInstagramInstaloader env workDir = .ok (p, n)) :
    n ≠ 0 := by
  unfold downloadFromInstagramInstaloader at h
  by_cases hav : !env.available
  · rw [if_pos hav] at h; exact absurd h (by simp)
  · rw [if_neg hav] at h
    cases hsc : env.shortcode with
    | none => rw [hsc] at h; exact absurd h (by simp)
    | some sc =>
        rw [hsc] at h
        dsimp only at h
        cases hpf : env.postFetch with
        | error e => rw [hpf] at h; exact absurd h (by simp)
        | ok u =>
            rw [hpf] at h
            dsimp only at h
            by_cases hv : env.postIsVideo
            · rw [if_pos hv] at h
              cases hvu : env.videoUrl with
              | none => rw [hvu] at h; exact absurd h (by simp)
              | some vu =>
                  rw [hvu] at h
                  dsimp only at h
                  cases htry : instaTry env (workDir ++ "/input.mp4") 0 env.retries with
                  | ok r =>
                      rw [htry] at h
                      simp only [Except.ok.injEq] at h
                      subst h
                      exact instaTry_ok 0 env.retries htry
                  | error e => rw [htry] at h; exact absurd h (by simp)
            · rw [if_neg hv] at h; exact absurd h (by simp)

theorem classifyExtractError_ok {env : UrlEnv} {workDir e p : String} {n : ℕ}
    (h : classifyExtractError env workDir e = .ok (p, n)) : n ≠ 0 := by
  unfold classifyExtractError at h
  cases hins : downloadFromInstagramInstaloader env.insta workDir with
  | ok r =>
      obtain ⟨rp, rn⟩ := r
      have hr : rn ≠ 0 := downloadFromInstagramInstaloader_ok hins
      rw [hins] at h
      dsimp only at h
      split_ifs at h <;> simp_all
  | error e2 =>
      rw [hins] at h
      dsimp only at h
      split_ifs at h <;> simp_all

theorem urlMainBody_ok {env : UrlEnv} {workDir p : String} {n : ℕ}
    (h : urlMainBody env workDir = .ok (p, n)) : n ≠ 0 := by
  unfold urlMainBody at h
  cases hei : env.extractInfo with
  | error e =>
      rw [hei] at h
      dsimp only at h
      cases hc : classifyExtractError env workDir e with
      | ok r =>
          rw [hc] at h
          simp only [Except.ok.injEq] at h
          subst h
          exact classifyExtractError_ok hc
      | error m => rw [hc] at h; exact absurd h (by simp)
  | ok u =>
      rw [hei] at h
      dsimp only at h
      cases hdl : env.ytdlDownload with
      | error err => rw [hdl] at h; exact absurd h (by simp)
      | ok u2 =>
          rw [hdl] at h
          dsimp only at h
          by_cases hex : env.fileExists env.prepFilename
          · rw [if_pos hex] at h
            dsimp only at h
            by_cases hz : env.sizeOf env.prepFilename = 0
            · rw [if_pos hz] at h; exact absurd h (by simp)
            · rw [if_neg hz] at h
              simp only [Except.ok.injEq, Prod.mk.injEq] at h
              omega
          · rw [if_neg hex] at h
            cases hg : env.globInput with
            | none => rw [hg] at h; exact absurd h (by simp)
            | some f =>
                rw [hg] at h
                dsimp only at h
                by_cases hz : env.sizeOf f = 0
                · rw [if_pos hz] at h; exact absurd h (by simp)
                · rw [if_neg hz] at h
                  simp only [Except.ok.injEq, Prod.mk.injEq] at h
                  omega

theorem ytdlHandler_ok {env : UrlEnv} {workDir msg p : String} {n : ℕ}
    (h : ytdlHandler env workDir msg = .ok (p, n)) : n ≠ 0 := by
  unfold ytdlHandler at h
  by_cases hfmt : pyContains (pyLower msg) "format" = true ∨
      pyContains (pyLower msg) "codec" = true
  · rw [if_pos (by simpa using hfmt)] at h
    cases hfb : env.fbExtract with
    | error e => rw [hfb] at h; exact absurd h (by simp)
    | ok u =>
        rw [hfb] at h
        cases hg : env.fbGlob with
        | some f =>
            rw [hg] at h
            dsimp only at h
            split_ifs at h <;>
              first
              | (injection h with hpair; injection hpair with h1 h2; omega)
              | injection h
        | none =>
            rw [hg] at h
            dsimp only at h
            split_ifs at h <;>
              first
              | (injection h with hpair; injection hpair with h1 h2; omega)
              | injection h
  · rw [if_neg (by simpa using hfmt)] at h
    cases hins : downloadFromInstagramInstaloader env.insta workDir with
    | ok r =>
        obtain ⟨rp, rn⟩ := r
        have hr : rn ≠ 0 := downloadFromInstagramInstaloader_ok hins
        rw [hins] at h
        dsimp only at h
        split_ifs at h <;> simp_all
    | error e2 =>
        rw [hins] at h
        dsimp only at h
        split_ifs at h <;> simp_all

theorem plainHandler_ok {env : UrlEnv} {workDir msg p : String} {n : ℕ}
    (h : plainHandler env workDir msg = .ok (p, n)) : n ≠ 0 := by
  unfold plainHandler at h
  cases hins : downloadFromInstagramInstaloader env.insta workDir with
  | ok r =>
      obtain ⟨rp, rn⟩ := r
      have hr : rn ≠ 0 := downloadFromInstagramInstaloader_ok hins
      rw [hins] at h
      dsimp only at h
      split_ifs at h <;> simp_all
  | error e2 =>
      rw [hins] at h
      dsimp only at h
      split_ifs at h <;> simp_all

theorem downloadFromUrl_ok {env : UrlEnv} {workDir p : String} {n : ℕ}
    (h : downloadFromUrl env workDir = .ok (p, n)) : n ≠ 0 := by
  unfold downloadFromUrl at h
  cases hm : urlMainBody env workDir with
  | ok r =>
      rw [hm] at h
      simp only [Except.ok.injEq] at h
      subst h
      exact urlMainBody_ok hm
  | error err =>
      rw [hm] at h
      obtain ⟨kind, msg⟩ := err
      cases kind with
      | ytdl => exact ytdlHandler_ok h
      | plain => exact plainHandler_ok h

/-- C9 counterexample: the claim fails on the file-reference path.
`download_from_telegram` performs no size check, so a zero-byte
transfer that the platform reports as successful is returned as a
success by `download_video`: here the oracle writes 0 bytes and the
function returns `.ok` with a zero-byte file. -/
theorem claim_C9_counterexample :
    downloadVideo ⟨Except.ok "v.mp4", Except.ok 0⟩
      ⟨⟨false, none, Except.ok (), false, none, fun _ => Except.error "e", 0⟩,
        none, Except.ok (), Except.ok (), "f", fun _ => false, none, fun _ => 0,
        Except.ok (), "f", fun _ => false, none, fun _ => 0⟩
      "file" "work"
      = Except.ok ("work/input.mp4", 0) := by
  rfl

/-- C9 (amended): every successful return of the Source Fetcher over
the **web-URL path** (`download_from_url`, including the
fallback-format retry and every Instagram instaloader fallback call)
and over the standalone instaloader path refers to a file of non-zero
size — a zero-byte download raises instead.  The Telegram
file-reference path has no such check (see the counterexample). -/
theorem claim_C9_nonzero_download (url : UrlEnv) (insta : InstaEnv) (tg : TgEnv)
    (inputType workDir : String) (hnotfile : inputType ≠ "file") :
    (∀ p n, downloadVideo tg url inputType workDir = .ok (p, n) → n ≠ 0) ∧
    (∀ p n, downloadFromInstagramInstaloader insta workDir = .ok (p, n) → n ≠ 0) := by
  constructor
  · intro p n h
    unfold downloadVideo at h
    rw [if_neg hnotfile] at h
    exact downloadFromUrl_ok h
  · intro p n h
    exact downloadFromInstagramInstaloader_ok h

theorem claim_C9_witness :
    ("url" ≠ "file") ∧
    (∀ p n, downloadVideo ⟨Except.ok "v.mp4", Except.ok 0⟩
      ⟨⟨false, none, Except.ok (), false, none, fun _ => Except.error "e", 0⟩,
        none, Except.ok (), Except.ok (), "work/input.mp4", fun _ => true, none,
        fun _ => 7, Except.ok (), "f", fun _ => false, none, fun _ => 0⟩
      "url" "work" = .ok (p, n) → n ≠ 0) :=
  ⟨by decide,
   (claim_C9_nonzero_download
      ⟨⟨false, none, Except.ok (), false, none, fun _ => Except.error "e", 0⟩,
        none, Except.ok (), Except.ok (), "work/input.mp4", fun _ => true, none,
        fun _ => 7, Except.ok (), "f", fun _ => false, none, fun _ => 0⟩
      ⟨false, none, Except.ok (), false, none, fun _ => Except.error "e", 0⟩
      ⟨Except.ok "v.mp4", Except.ok 0⟩ "url" "work" (by decide)).1⟩


/-! ## Theorems: orchestrator and voice synthesizer (claims C1, C8) -/

theorem orchStage2_error {env : OrchEnv} {t : TaskRec} {db : DbTask}
    {r : DbTask × List PStage} (h : orchStage2 env t db = .error r) :
    t.generateSubtitles = true ∧ ∃ m, env.transcribe = .error m ∧
      r = (failTask db m, [PStage.download, PStage.transcribe]) := by
  unfold orchStage2 at h
  by_cases hg : t.generateSubtitles = true
  · rw [if_pos hg] at h
    cases htr : env.transcribe with
    | error m =>
        rw [htr] at h
        simp only [Except.error.injEq] at h
        exact ⟨hg, m, rfl, h.symm⟩
    | ok pr =>
        obtain ⟨sp, det⟩ := pr
        rw [htr] at h
        exact absurd h (by simp)
  · rw [if_neg hg] at h
    exact absurd h (by simp)

theorem orchStage2_ok {env : OrchEnv} {t : TaskRec} {db db3 : DbTask}
    {sp det : Option String} {tr2 : List PStage}
    (h : orchStage2 env t db = .ok (db3, sp, det, tr2)) :
    db3.status = db.status ∧ db3.errorMessage = db.errorMessage ∧
    db3.outputFilePath = db.outputFilePath ∧
    db3.subtitlesFilePath = db.subtitlesFilePath ∧
    db3.inputFilePath = db.inputFilePath ∧
    ((t.generateSubtitles = true ∧ tr2 = [PStage.download, PStage.transcribe] ∧
        ∃ p d, env.transcribe = .ok (p, d) ∧ sp = some p) ∨
      (t.generateSubtitles = false ∧ tr2 = [PStage.download] ∧ sp = none)) := by
  unfold orchStage2 at h
  by_cases hg : t.generateSubtitles = true
  · rw [if_pos hg] at h
    cases htr : env.transcribe with
    | error m => rw [htr] at h; exact absurd h (by simp)
    | ok pr =>
        obtain ⟨p, d⟩ := pr
        rw [htr] at h
        cases d with
        | none =>
            dsimp only at h
            simp only [Except.ok.injEq, Prod.mk.injEq] at h
            obtain ⟨h1, h2, h3, h4⟩ := h
            subst h1; subst h2; subst h3; subst h4
            exact ⟨rfl, rfl, rfl, rfl, rfl, Or.inl ⟨hg, rfl, p, none, rfl, rfl⟩⟩
        | some dv =>
            dsimp only at h
            by_cases hd : dv ≠ "" ∧ some dv ≠ t.sourceLanguage
            · rw [if_pos hd] at h
              simp only [Except.ok.injEq, Prod.mk.injEq] at h
              obtain ⟨h1, h2, h3, h4⟩ := h
              subst h1; subst h2; subst h3; subst h4
              exact ⟨rfl, rfl, rfl, rfl, rfl, Or.inl ⟨hg, rfl, p, some dv, rfl, rfl⟩⟩
            · rw [if_neg hd] at h
              simp only [Except.ok.injEq, Prod.mk.injEq] at h
              obtain ⟨h1, h2, h3, h4⟩ := h
              subst h1; subst h2; subst h3; subst h4
              exact ⟨rfl, rfl, rfl, rfl, rfl, Or.inl ⟨hg, rfl, p, some dv, rfl, rfl⟩⟩
  · rw [if_neg hg] at h
    simp only [Except.ok.injEq, Prod.mk.injEq] at h
    obtain ⟨h1, h2, h3, h4⟩ := h
    subst h1; subst h2; subst h3; subst h4
    exact ⟨rfl, rfl, rfl, rfl, rfl, Or.inr ⟨by simpa using hg, rfl, rfl⟩⟩

theorem orchStage3_error {env : OrchEnv} {t : TaskRec} {db3 : DbTask}
    {sp2 : Option String} {tr2 : List PStage} {r : DbTask × List PStage}
    (h : orchStage3 env t db3 sp2 tr2 = .error r) :
    (t.translateOpt = true ∧ sp2.isSome = true) ∧
    ∃ m, env.translateStage = .error m ∧
      r = (failTask db3 m, tr2 ++ [PStage.translate]) := by
  unfold orchStage3 at h
  by_cases hc : t.translateOpt = true ∧ sp2.isSome = true
  · rw [if_pos hc] at h
    cases htr : env.translateStage with
    | error m =>
        rw [htr] at h
        simp only [Except.error.injEq] at h
        exact ⟨hc, m, rfl, h.symm⟩
    | ok p => rw [htr] at h; exact absurd h (by simp)
  · rw [if_neg hc] at h
    exact absurd h (by simp)

theorem orchStage3_ok {env : OrchEnv} {t : TaskRec} {db3 : DbTask}
    {sp2 sp3 : Option String} {tr2 tr3 : List PStage}
    (h : orchStage3 env t db3 sp2 tr2 = .ok (sp3, tr3)) :
    ((t.translateOpt = true ∧ sp2.isSome = true) ∧
      tr3 = tr2 ++ [PStage.translate] ∧
      ∃ p, env.translateStage = .ok p ∧ sp3 = some p) ∨
    (¬(t.translateOpt = true ∧ sp2.isSome = true) ∧ sp3 = sp2 ∧ tr3 = tr2) := by
  unfold orchStage3 at h
  by_cases hc : t.translateOpt = true ∧ sp2.isSome = true
  · rw [if_pos hc] at h
    cases htr : env.translateStage with
    | error m => rw [htr] at h; exact absurd h (by simp)
    | ok p =>
        rw [htr] at h
        simp only [Except.ok.injEq, Prod.mk.injEq] at h
        exact Or.inl ⟨hc, h.2.symm, p, rfl, h.1.symm⟩
  · rw [if_neg hc] at h
    simp only [Except.ok.injEq, Prod.mk.injEq] at h
    exact Or.inr ⟨hc, h.1.symm, h.2.symm⟩

theorem orchStage4_error {env : OrchEnv} {t : TaskRec} {db3 : DbTask}
    {sp3 : Option String} {tr3 : List PStage} {r : DbTask × List PStage}
    (h : orchStage4 env t db3 sp3 tr3 = .error r) :
    ∃ m, env.voiceoverStage = .error m ∧
      r = (failTask db3 m, tr3 ++ [PStage.voiceover]) := by
  unfold orchStage4 at h
  by_cases hc : t.voiceoverOpt = true ∧ sp3.isSome = true
  · rw [if_pos hc] at h
    cases htr : env.voiceoverStage with
    | error m =>
        rw [htr] at h
        simp only [Except.error.injEq] at h
        exact ⟨m, rfl, h.symm⟩
    | ok vp => rw [htr] at h; exact absurd h (by simp)
  · rw [if_neg hc] at h
    exact absurd h (by simp)

theorem orchStage4_ok {env : OrchEnv} {t : TaskRec} {db3 : DbTask}
    {sp3 : Option String} {tr3 tr4 : List PStage} {vp : Option String}
    (h : orchStage4 env t db3 sp3 tr3 = .ok (vp, tr4)) :
    (tr4 = tr3 ++ [PStage.voiceover] ∧ ∃ v, env.voiceoverStage = .ok v) ∨
      (tr4 = tr3 ∧ vp = none) := by
  unfold orchStage4 at h
  by_cases hc : t.voiceoverOpt = true ∧ sp3.isSome = true
  · rw [if_pos hc] at h
    cases htr : env.voiceoverStage with
    | error m => rw [htr] at h; exact absurd h (by simp)
    | ok vp2 =>
        rw [htr] at h
        simp only [Except.ok.injEq, Prod.mk.injEq] at h
        exact Or.inl ⟨h.2.symm, vp2, rfl⟩
  · rw [if_neg hc] at h
    simp only [Except.ok.injEq, Prod.mk.injEq] at h
    exact Or.inr ⟨h.2.symm, h.1.symm⟩

theorem orchStage2_err_eval {env : OrchEnv} {t : TaskRec} {m : String}
    (hg : t.generateSubtitles = true) (htr : env.transcribe = .error m)
    (db : DbTask) :
    orchStage2 env t db = .error (failTask db m, [PStage.download, PStage.transcribe]) := by
  unfold orchStage2
  rw [if_pos hg, htr]

theorem orchStage2_ok_eval {env : OrchEnv} {t : TaskRec} {p : String}
    {d : Option String} (hg : t.generateSubtitles = true)
    (htr : env.transcribe = .ok (p, d)) (db : DbTask) :
    ∃ db3, orchStage2 env t db
        = .ok (db3, some p, d, [PStage.download, PStage.transcribe]) ∧
      db3.status = db.status ∧ db3.errorMessage = db.errorMessage ∧
      db3.outputFilePath = db.outputFilePath ∧
      db3.subtitlesFilePath = db.subtitlesFilePath := by
  unfold orchStage2
  rw [if_pos hg, htr]
  cases d with
  | none => exact ⟨db, rfl, rfl, rfl, rfl, rfl⟩
  | some dv =>
      dsimp only
      by_cases hd : dv ≠ "" ∧ some dv ≠ t.sourceLanguage
      · rw [if_pos hd]
        exact ⟨_, rfl, rfl, rfl, rfl, rfl⟩
      · rw [if_neg hd]
        exact ⟨db, rfl, rfl, rfl, rfl, rfl⟩

theorem orchStage2_skip_eval {env : OrchEnv} {t : TaskRec}
    (hg : t.generateSubtitles = false) (db : DbTask) :
    orchStage2 env t db = .ok (db, none, resolvedDetected t, [PStage.download]) := by
  unfold orchStage2
  rw [if_neg (by simp [hg])]

theorem orchStage3_run_err {env : OrchEnv} {t : TaskRec} {m : String}
    {sp : Option String} (hc : t.translateOpt = true ∧ sp.isSome = true)
    (htl : env.translateStage = .error m) (db : DbTask) (tr : List PStage) :
    orchStage3 env t db sp tr = .error (failTask db m, tr ++ [PStage.translate]) := by
  unfold orchStage3
  rw [if_pos hc, htl]

theorem orchStage3_run_ok {env : OrchEnv} {t : TaskRec} {q : String}
    {sp : Option String} (hc : t.translateOpt = true ∧ sp.isSome = true)
    (htl : env.translateStage = .ok q) (db : DbTask) (tr : List PStage) :
    orchStage3 env t db sp tr = .ok (some q, tr ++ [PStage.translate]) := by
  unfold orchStage3
  rw [if_pos hc, htl]

theorem orchStage3_skip_eval {env : OrchEnv} {t : TaskRec} {sp : Option String}
    (hc : ¬(t.translateOpt = true ∧ sp.isSome = true)) (db : DbTask)
    (tr : List PStage) :
    orchStage3 env t db sp tr = .ok (sp, tr) := by
  unfold orchStage3
  rw [if_neg hc]

theorem orchStage4_run_err {env : OrchEnv} {t : TaskRec} {m : String}
    {sp : Option String} (hc : t.voiceoverOpt = true ∧ sp.isSome = true)
    (hvo : env.voiceoverStage = .error m) (db : DbTask) (tr : List PStage) :
    orchStage4 env t db sp tr = .error (failTask db m, tr ++ [PStage.voiceover]) := by
  unfold orchStage4
  rw [if_pos hc, hvo]

theorem orchStage4_run_ok {env : OrchEnv} {t : TaskRec} {vp : Option String}
    {sp : Option String} (hc : t.voiceoverOpt = true ∧ sp.isSome = true)
    (hvo : env.voiceoverStage = .ok vp) (db : DbTask) (tr : List PStage) :
    orchStage4 env t db sp tr = .ok (vp, tr ++ [PStage.voiceover]) := by
  unfold orchStage4
  rw [if_pos hc, hvo]

theorem orchStage4_skip_eval {env : OrchEnv} {t : TaskRec} {sp : Option String}
    (hc : ¬(t.voiceoverOpt = true ∧ sp.isSome = true)) (db : DbTask)
    (tr : List PStage) :
    orchStage4 env t db sp tr = .ok (none, tr) := by
  unfold orchStage4
  rw [if_neg hc]

theorem processVideoTask_run_spec (env : OrchEnv) (db0 : DbTask) (t : TaskRec)
    (htask : env.task = some t) (db : DbTask) (tr : List PStage)
    (hres : processVideoTask env db0 = (db, tr)) :
    (db.status = TaskStatus.completed ∨ db.status = TaskStatus.failed) ∧
    (db.status = TaskStatus.failed → ∃ m, db.errorMessage = some m) ∧
    (∀ m, env.download = .error m →
      db = failTask { db0 with status := TaskStatus.processing } m ∧
        tr = [PStage.download]) ∧
    (∀ p, env.download = .ok p → (p = "" ∨ env.pathExists p = false) →
      db = failTask { db0 with status := TaskStatus.processing }
          "Failed to download video" ∧
        tr = [PStage.download]) ∧
    (∀ m, env.transcribe = .error m → PStage.transcribe ∈ tr →
      db.status = TaskStatus.failed ∧ db.errorMessage = some m ∧
        tr = [PStage.download, PStage.transcribe]) ∧
    (∀ m, env.translateStage = .error m → PStage.translate ∈ tr →
      db.status = TaskStatus.failed ∧ db.errorMessage = some m ∧
        tr = [PStage.download, PStage.transcribe, PStage.translate]) ∧
    (∀ m, env.voiceoverStage = .error m → PStage.voiceover ∈ tr →
      db.status = TaskStatus.failed ∧ db.errorMessage = some m ∧
        PStage.compose ∉ tr) ∧
    (∀ m, env.compose = .error m → PStage.compose ∈ tr →
      db.status = TaskStatus.failed ∧ db.errorMessage = some m) ∧
    (∀ out, env.compose = .ok out → PStage.compose ∈ tr →
      db.status = TaskStatus.completed ∧ db.outputFilePath = some out ∧
        db.subtitlesFilePath = pipelineSubtitles env t) ∧
    (∀ vp, env.voiceoverStage = .ok vp → PStage.voiceover ∈ tr →
      PStage.compose ∈ tr) := by
  unfold processVideoTask at hres
  rw [htask] at hres
  dsimp only at hres
  cases hdl : env.download with
  | error m0 =>
      rw [hdl] at hres
      dsimp only at hres
      simp only [Prod.mk.injEq] at hres
      obtain ⟨hdb, htrc⟩ := hres
      subst hdb; subst htrc
      simp_all [failTask]
  | ok inputPath =>
      rw [hdl] at hres
      dsimp only at hres
      by_cases hbad : inputPath = "" ∨ (!env.pathExists inputPath) = true
      · rw [if_pos hbad] at hres
        simp only [Prod.mk.injEq] at hres
        obtain ⟨hdb, htrc⟩ := hres
        subst hdb; subst htrc
        simp_all [failTask]
      · rw [if_neg hbad] at hres
        have hgood : ¬(inputPath = "" ∨ env.pathExists inputPath = false) := by
          simpa using hbad
        by_cases hg : t.generateSubtitles = true
        · cases htr : env.transcribe with
          | error m1 =>
              rw [orchStage2_err_eval hg htr] at hres
              dsimp only at hres
              simp only [Prod.mk.injEq] at hres
              obtain ⟨hdb, htrc⟩ := hres
              subst hdb; subst htrc
              simp_all [failTask]
          | ok pr =>
              obtain ⟨p1, d1⟩ := pr
              obtain ⟨db3, h2eq, hst, herr, hout, hsub⟩ :=
                orchStage2_ok_eval hg htr
                  { { db0 with status := TaskStatus.processing } with
                      inputFilePath := some inputPath }
              rw [h2eq] at hres
              dsimp only at hres
              by_cases hc3 : t.translateOpt = true ∧ (some p1).isSome = true
              · cases htl : env.translateStage with
                | error m2 =>
                    rw [orchStage3_run_err hc3 htl] at hres
                    dsimp only at hres
                    simp only [Prod.mk.injEq] at hres
                    obtain ⟨hdb, htrc⟩ := hres
                    subst hdb; subst htrc
                    simp_all [failTask]
                | ok q =>
                    rw [orchStage3_run_ok hc3 htl] at hres
                    dsimp only at hres
                    by_cases hc4 : t.voiceoverOpt = true ∧ (some q).isSome = true
                    · cases hvo : env.voiceoverStage with
                      | error m3 =>
                          rw [orchStage4_run_err hc4 hvo] at hres
                          dsimp only at hres
                          simp only [Prod.mk.injEq] at hres
                          obtain ⟨hdb, htrc⟩ := hres
                          subst hdb; subst htrc
                          simp_all [failTask]
                      | ok vp1 =>
                          rw [orchStage4_run_ok hc4 hvo] at hres
                          dsimp only at hres
                          cases hcomp : env.compose with
                          | error mC =>
                              rw [hcomp] at hres
                              dsimp only at hres
                              simp only [Prod.mk.injEq] at hres
                              obtain ⟨hdb, htrc⟩ := hres
                              subst hdb; subst htrc
                              simp_all [failTask]
                          | ok out1 =>
                              rw [hcomp] at hres
                              dsimp only at hres
                              simp only [Prod.mk.injEq] at hres
                              obtain ⟨hdb, htrc⟩ := hres
                              subst hdb; subst htrc
                              simp_all [failTask, pipelineSubtitles]
                    · rw [orchStage4_skip_eval hc4] at hres
                      dsimp only at hres
                      cases hcomp : env.compose with
                      | error mC =>
                          rw [hcomp] at hres
                          dsimp only at hres
                          simp only [Prod.mk.injEq] at hres
                          obtain ⟨hdb, htrc⟩ := hres
                          subst hdb; subst htrc
                          simp_all [failTask]
                      | ok out1 =>
                          rw [hcomp] at hres
                          dsimp only at hres
                          simp only [Prod.mk.injEq] at hres
                          obtain ⟨hdb, htrc⟩ := hres
                          subst hdb; subst htrc
                          simp_all [failTask, pipelineSubtitles]
              · rw [orchStage3_skip_eval hc3] at hres
                dsimp only at hres
                by_cases hc4 : t.voiceoverOpt = true ∧ (some p1).isSome = true
                · cases hvo : env.voiceoverStage with
                  | error m3 =>
                      rw [orchStage4_run_err hc4 hvo] at hres
                      dsimp only at hres
                      simp only [Prod.mk.injEq] at hres
                      obtain ⟨hdb, htrc⟩ := hres
                      subst hdb; subst htrc
                      simp_all [failTask]
                  | ok vp1 =>
                      rw [orchStage4_run_ok hc4 hvo] at hres
                      dsimp only at hres
                      cases hcomp : env.compose with
                      | error mC =>
                          rw [hcomp] at hres
                          dsimp only at hres
                          simp only [Prod.mk.injEq] at hres
                          obtain ⟨hdb, htrc⟩ := hres
                          subst hdb; subst htrc
                          simp_all [failTask]
                      | ok out1 =>
                          rw [hcomp] at hres
                          dsimp only at hres
                          simp only [Prod.mk.injEq] at hres
                          obtain ⟨hdb, htrc⟩ := hres
                          subst hdb; subst htrc
                          simp_all [failTask, pipelineSubtitles]
                · rw [orchStage4_skip_eval hc4] at hres
                  dsimp only at hres
                  cases hcomp : env.compose with
                  | error mC =>
                      rw [hcomp] at hres
                      dsimp only at hres
                      simp only [Prod.mk.injEq] at hres
                      obtain ⟨hdb, htrc⟩ := hres
                      subst hdb; subst htrc
                      simp_all [failTask]
                  | ok out1 =>
                      rw [hcomp] at hres
                      dsimp only at hres
                      simp only [Prod.mk.injEq] at hres
                      obtain ⟨hdb, htrc⟩ := hres
                      subst hdb; subst htrc
                      simp_all [failTask, pipelineSubtitles]
        · have hg' : t.generateSubtitles = false := by simpa using hg
          rw [orchStage2_skip_eval hg'] at hres
          dsimp only at hres
          rw [orchStage3_skip_eval (by simp)] at hres
          dsimp only at hres
          rw [orchStage4_skip_eval (by simp)] at hres
          dsimp only at hres
          cases hcomp : env.compose with
          | error mC =>
              rw [hcomp] at hres
              dsimp only at hres
              simp only [Prod.mk.injEq] at hres
              obtain ⟨hdb, htrc⟩ := hres
              subst hdb; subst htrc
              simp_all [failTask]
          | ok out1 =>
              rw [hcomp] at hres
              dsimp only at hres
              simp only [Prod.mk.injEq] at hres
              obtain ⟨hdb, htrc⟩ := hres
              subst hdb; subst htrc
              simp_all [failTask, pipelineSubtitles]

theorem generateVoiceoverSimple_none (env : TTSEnv) (content : List Char)
    (outputDir language voice : String)
    (hs : env.simpleSynthOk = false) (hg : env.gttsOk = false) :
    generateVoiceoverSimple env content outputDir language voice = none := by
  unfold generateVoiceoverSimple
  dsimp only
  by_cases h1 : parseSrtToSegments content = []
  · rw [if_pos h1]
  · rw [if_neg h1]
    by_cases h2 : pyStrip (pyJoin " "
        ((parseSrtToSegments content).map (fun s => String.mk s.text))) = ""
    · rw [if_pos h2]
    · rw [if_neg h2]
      cases hsel : selectModelConfig language voice with
      | error u =>
          dsimp only
          rw [if_neg (by simp [hg])]
      | ok cfg =>
          dsimp only
          rw [if_neg (by simp [hs]), if_neg (by simp [hg])]

theorem synthLoop_succ_empty (env : TTSEnv)
    (hfail : ∀ i, (env.synthOk i && env.segmentExists i) = false) :
    ∀ i segs, (synthLoop env i segs).2 = [] := by
  intro i segs
  induction segs generalizing i with
  | nil => rfl
  | cons seg rest ih =>
      unfold synthLoop
      rcases hrec : synthLoop env (i + 1) rest with ⟨att, succ⟩
      have hsucc : succ = [] := by
        have := ih (i + 1)
        rw [hrec] at this
        exact this
      by_cases hstrip : pyStripList seg.text = []
      · simp only [if_pos hstrip]
        exact hsucc
      · simp only [if_neg hstrip, hfail i]
        exact hsucc

theorem synthLoop_trace_indep (env env' : TTSEnv) :
    ∀ i segs, (synthLoop env i segs).1 = (synthLoop env' i segs).1 := by
  intro i segs
  induction segs generalizing i with
  | nil => rfl
  | cons seg rest ih =>
      unfold synthLoop
      rcases h1 : synthLoop env (i + 1) rest with ⟨att, succ⟩
      rcases h2 : synthLoop env' (i + 1) rest with ⟨att', succ'⟩
      have hatt : att = att' := by
        have := ih (i + 1)
        rw [h1, h2] at this
        exact this
      split_ifs <;> simp [hatt]

/-- C1: a `process_video_task` run on an existing task never ends in
`processing`: it ends `completed` (exactly when composition succeeded,
with the output and subtitle artifact paths recorded) or `failed` with
the raising stage's message recorded; a stage that raises produces a
`failed` row carrying exactly that message and no later stage appears
in the executed-stage trace. -/
theorem claim_C1_orchestrator_state (env : OrchEnv) (db0 : DbTask) (t : TaskRec)
    (htask : env.task = some t) (db : DbTask) (tr : List PStage)
    (hres : processVideoTask env db0 = (db, tr)) :
    db.status ≠ TaskStatus.processing ∧
    (db.status = TaskStatus.completed ∨ db.status = TaskStatus.failed) ∧
    (db.status = TaskStatus.failed → ∃ m, db.errorMessage = some m) ∧
    (∀ m, env.download = .error m →
      db = failTask { db0 with status := TaskStatus.processing } m ∧
        tr = [PStage.download]) ∧
    (∀ m, env.transcribe = .error m → PStage.transcribe ∈ tr →
      db.status = TaskStatus.failed ∧ db.errorMessage = some m ∧
        tr = [PStage.download, PStage.transcribe]) ∧
    (∀ m, env.translateStage = .error m → PStage.translate ∈ tr →
      db.status = TaskStatus.failed ∧ db.errorMessage = some m ∧
        tr = [PStage.download, PStage.transcribe, PStage.translate]) ∧
    (∀ m, env.voiceoverStage = .error m → PStage.voiceover ∈ tr →
      db.status = TaskStatus.failed ∧ db.errorMessage = some m ∧
        PStage.compose ∉ tr) ∧
    (∀ m, env.compose = .error m → PStage.compose ∈ tr →
      db.status = TaskStatus.failed ∧ db.errorMessage = some m) ∧
    (∀ out, env.compose = .ok out → PStage.compose ∈ tr →
      db.status = TaskStatus.completed ∧ db.outputFilePath = some out ∧
        db.subtitlesFilePath = pipelineSubtitles env t) := by
  have h := processVideoTask_run_spec env db0 t htask db tr hres
  refine ⟨?_, h.1, h.2.1, h.2.2.1, h.2.2.2.2.1, h.2.2.2.2.2.1,
    h.2.2.2.2.2.2.1, h.2.2.2.2.2.2.2.1, h.2.2.2.2.2.2.2.2.1⟩
  rcases h.1 with hc | hc <;> simp [hc]

theorem claim_C1_witness :
    processVideoTask
        ⟨some ⟨true, false, false, false, false, none, none⟩,
          Except.ok "in.mp4", fun _ => true,
          Except.ok ("subs.srt", some "en"), Except.ok "x",
          Except.ok none, Except.ok "out.mp4"⟩
        ⟨TaskStatus.created, none, none, none, none, none⟩
      = (⟨TaskStatus.completed, none, some "in.mp4", some "out.mp4",
          some "subs.srt", some "en"⟩,
        [PStage.download, PStage.transcribe, PStage.compose]) ∧
    (⟨TaskStatus.completed, none, some "in.mp4", some "out.mp4",
        some "subs.srt", some "en"⟩ : DbTask).status ≠ TaskStatus.processing :=
  ⟨by decide,
   (claim_C1_orchestrator_state
      ⟨some ⟨true, false, false, false, false, none, none⟩,
        Except.ok "in.mp4", fun _ => true,
        Except.ok ("subs.srt", some "en"), Except.ok "x",
        Except.ok none, Except.ok "out.mp4"⟩
      ⟨TaskStatus.created, none, none, none, none, none⟩
      ⟨true, false, false, false, false, none, none⟩ rfl
      ⟨TaskStatus.completed, none, some "in.mp4", some "out.mp4",
        some "subs.srt", some "en"⟩
      [PStage.download, PStage.transcribe, PStage.compose] (by decide)).1⟩

/-- C8: (i) when no caption segment synthesizes successfully (every
per-segment backend call fails or leaves no file, and in the
simple-fallback mode the single synthesis and the gTTS fallback fail
too), `generate_voiceover_synchronized` returns no path rather than
raising (it is a total function of its oracles); (ii) the set of
segments attempted does not depend on the synthesis outcomes —
per-segment failures are skipped without aborting the rest; (iii) the
orchestrator runs the composition stage whenever the voiceover stage
returns (even with no path). -/
theorem claim_C8_voiceover_degrades (env env' : TTSEnv) (content : List Char)
    (outputDir language voice : String) (oenv : OrchEnv) (db0 : DbTask)
    (t : TaskRec) (db : DbTask) (tr : List PStage) :
    ((∀ i, (env.synthOk i && env.segmentExists i) = false) →
      env.simpleSynthOk = false → env.gttsOk = false →
      (generateVoiceoverSynchronized env content outputDir language voice).1
        = none) ∧
    ((generateVoiceoverSynchronized env content outputDir language voice).2
      = (generateVoiceoverSynchronized env' content outputDir language voice).2) ∧
    (oenv.task = some t → processVideoTask oenv db0 = (db, tr) →
      ∀ vp, oenv.voiceoverStage = .ok vp → PStage.voiceover ∈ tr →
        PStage.compose ∈ tr) := by
  refine ⟨?_, ?_, ?_⟩
  · intro hfail hs hg
    unfold generateVoiceoverSynchronized
    dsimp only
    by_cases h1 : parseSrtToSegments content = []
    · rw [if_pos h1]
    · rw [if_neg h1]
      cases hsel : selectModelConfig language voice with
      | error u =>
          dsimp only
          rw [generateVoiceoverSimple_none env content outputDir language voice hs hg]
      | ok cfg =>
          dsimp only
          rcases hloop : synthLoop env 0 (parseSrtToSegments content) with ⟨att, succ⟩
          have hsucc : succ = [] := by
            have := synthLoop_succ_empty env hfail 0 (parseSrtToSegments content)
            rw [hloop] at this
            exact this
          dsimp only
          rw [if_pos hsucc]
  · unfold generateVoiceoverSynchronized
    dsimp only
    by_cases h1 : parseSrtToSegments content = []
    · rw [if_pos h1, if_pos h1]
    · rw [if_neg h1, if_neg h1]
      cases hsel : selectModelConfig language voice with
      | error u => rfl
      | ok cfg =>
          dsimp only
          rcases hloop : synthLoop env 0 (parseSrtToSegments content) with ⟨att, succ⟩
          rcases hloop' : synthLoop env' 0 (parseSrtToSegments content) with ⟨att', succ'⟩
          have hatt : att = att' := by
            have := synthLoop_trace_indep env env' 0 (parseSrtToSegments content)
            rw [hloop, hloop'] at this
            exact this
          dsimp only
          subst hatt
          split_ifs <;> rfl
  · intro htask hres vp hvo hmem
    exact (processVideoTask_run_spec oenv db0 t htask db tr hres).2.2.2.2.2.2.2.2.2
      vp hvo hmem

theorem claim_C8_witness :
    (∀ i, ((⟨fun _ => false, fun _ => false, false, false, false⟩ : TTSEnv).synthOk i &&
        (⟨fun _ => false, fun _ => false, false, false, false⟩ : TTSEnv).segmentExists i)
      = false) ∧
    (generateVoiceoverSynchronized ⟨fun _ => false, fun _ => false, false, false, false⟩
        "1\n00:00:00,000 --> 00:00:01,000\nHello\n\n".data "work" "en" "female").1
      = none :=
  ⟨fun _ => rfl,
   (claim_C8_voiceover_degrades
      ⟨fun _ => false, fun _ => false, false, false, false⟩
      ⟨fun _ => false, fun _ => false, false, false, false⟩
      "1\n00:00:00,000 --> 00:00:01,000\nHello\n\n".data "work" "en" "female"
      ⟨none, Except.error "e", fun _ => false, Except.error "e", Except.error "e",
        Except.error "e", Except.error "e"⟩
      ⟨TaskStatus.created, none, none, none, none, none⟩
      ⟨false, false, false, false, false, none, none⟩
      ⟨TaskStatus.created, none, none, none, none, none⟩ []).1
     (fun _ => rfl) rfl rfl⟩


theorem tsVal_formatTimestamp (x : ℚ) : tsVal (formatTimestamp x) = ⌊1000 * x⌋ := by
  unfold tsVal formatTimestamp pymod
  rw [div_one]
  have h1 : ⌊(x - 3600 * (⌊x / 3600⌋ : ℚ)) / 60⌋ = ⌊x / 60⌋ - 60 * ⌊x / 3600⌋ := by
    have e : (x - 3600 * (⌊x / 3600⌋ : ℚ)) / 60
        = x / 60 - ((60 * ⌊x / 3600⌋ : ℤ) : ℚ) := by
      push_cast
      ring
    rw [e, Int.floor_sub_int]
  have h2 : ⌊x - 60 * (⌊x / 60⌋ : ℚ)⌋ = ⌊x⌋ - 60 * ⌊x / 60⌋ := by
    have e : x - 60 * (⌊x / 60⌋ : ℚ) = x - ((60 * ⌊x / 60⌋ : ℤ) : ℚ) := by
      push_cast
      ring
    rw [e, Int.floor_sub_int]
  have h3 : ⌊(x - 1 * (⌊x⌋ : ℚ)) * 1000⌋ = ⌊1000 * x⌋ - 1000 * ⌊x⌋ := by
    have e : (x - 1 * (⌊x⌋ : ℚ)) * 1000 = 1000 * x - ((1000 * ⌊x⌋ : ℤ) : ℚ) := by
      push_cast
      ring
    rw [e, Int.floor_sub_int]
  dsimp only
  rw [h1, h2, h3]
  ring

theorem segmentCues_times (seg : WhisperSegment) :
    (segmentCues seg).map (fun c => (tsVal c.1, tsVal c.2.1))
      = (segmentTimes seg).map
          (fun pq => (⌊(1000 : ℚ) * pq.1⌋, ⌊(1000 : ℚ) * pq.2⌋)) := by
  unfold segmentCues segmentTimes
  by_cases hw : seg.words ≠ []
  · rw [if_pos hw, if_pos hw]
    have key : ∀ ws : List WhisperWord,
        (ws.filterMap (fun w =>
          match w.wstart, w.wstop with
          | some a, some b =>
              let text := pyStripList w.word
              if text = [] then none
              else some (formatTimestamp a, formatTimestamp b, text)
          | _, _ => none)).map (fun c => (tsVal c.1, tsVal c.2.1))
        = (ws.filterMap (fun w =>
          match w.wstart, w.wstop with
          | some a, some b =>
              if pyStripList w.word = [] then none else some (a, b)
          | _, _ => none)).map
            (fun pq => (⌊(1000 : ℚ) * pq.1⌋, ⌊(1000 : ℚ) * pq.2⌋)) := by
      intro ws
      induction ws with
      | nil => rfl
      | cons w rest ih =>
          rw [List.filterMap_cons, List.filterMap_cons]
          cases hws : w.wstart with
          | none =>
              cases hwe : w.wstop <;> dsimp only <;> exact ih
          | some a =>
              cases hwe : w.wstop with
              | none => dsimp only; exact ih
              | some b =>
                  dsimp only
                  by_cases hstrip : pyStripList w.word = []
                  · rw [if_pos hstrip, if_pos hstrip]
                    dsimp only
                    exact ih
                  · rw [if_neg hstrip, if_neg hstrip]
                    dsimp only [List.map_cons]
                    rw [tsVal_formatTimestamp, tsVal_formatTimestamp, ih]
    exact key seg.words
  · rw [if_neg hw, if_neg hw]
    simp [tsVal_formatTimestamp]

theorem transcribeCues_times (segs : List WhisperSegment) :
    (transcribeCues segs).map (fun c => (tsVal c.1, tsVal c.2.1))
      = (emittedTimes segs).map
          (fun pq => (⌊(1000 : ℚ) * pq.1⌋, ⌊(1000 : ℚ) * pq.2⌋)) := by
  induction segs with
  | nil => rfl
  | cons s rest ih =>
      unfold transcribeCues emittedTimes at *
      simp only [List.map_cons, List.flatten_cons, List.map_append]
      rw [segmentCues_times, ih]

/-- C4 counterexample: the claim as stated fails — `format_timestamp`
truncates to milliseconds, so a segment lasting half a millisecond
(with no word timing) is serialized with its start time code equal to
its end time code, not strictly less. -/
theorem claim_C4_counterexample :
    ¬ ∀ segs : List WhisperSegment, ∀ c ∈ transcribeCues segs,
        tsVal c.1 < tsVal c.2.1 := by
  intro hall
  have hmem : (formatTimestamp 0, formatTimestamp (1/2000), pyStripList "hi".data)
      ∈ transcribeCues [⟨[], 0, 1/2000, "hi".data⟩] := by
    rw [show transcribeCues [⟨[], 0, 1/2000, "hi".data⟩]
        = [(formatTimestamp 0, formatTimestamp (1/2000), pyStripList "hi".data)]
        from rfl]
    exact List.mem_singleton.mpr rfl
  have h := hall _ _ hmem
  dsimp only at h
  rw [tsVal_formatTimestamp, tsVal_formatTimestamp] at h
  norm_num at h

/-- C4 (amended): if every emitted cue's raw recognizer times are
strictly increasing at millisecond granularity, and the emitted start
times are ascending at millisecond granularity, then every serialized
cue has start time code strictly before its end time code and the cues
appear in ascending order of start time code. -/
theorem claim_C4_cue_order (segs : List WhisperSegment)
    (hlt : ∀ pq ∈ emittedTimes segs, ⌊(1000 : ℚ) * pq.1⌋ < ⌊(1000 : ℚ) * pq.2⌋)
    (hsort : ((emittedTimes segs).map
        (fun pq => ⌊(1000 : ℚ) * pq.1⌋)).Pairwise (· ≤ ·)) :
    (∀ c ∈ transcribeCues segs, tsVal c.1 < tsVal c.2.1) ∧
    ((transcribeCues segs).map (fun c => tsVal c.1)).Pairwise (· ≤ ·) := by
  have hpair := transcribeCues_times segs
  constructor
  · intro c hc
    have hm : (tsVal c.1, tsVal c.2.1)
        ∈ (emittedTimes segs).map
            (fun pq => (⌊(1000 : ℚ) * pq.1⌋, ⌊(1000 : ℚ) * pq.2⌋)) := by
      rw [← hpair]
      exact List.mem_map_of_mem _ hc
    obtain ⟨pq, hpq, heq⟩ := List.mem_map.mp hm
    show (tsVal c.1, tsVal c.2.1).1 < (tsVal c.1, tsVal c.2.1).2
    rw [← heq]
    exact hlt pq hpq
  · have hmap : (transcribeCues segs).map (fun c => tsVal c.1)
        = (emittedTimes segs).map (fun pq => ⌊(1000 : ℚ) * pq.1⌋) := by
      have h := congrArg (List.map Prod.fst) hpair
      simpa [List.map_map, Function.comp] using h
    rw [hmap]
    exact hsort

theorem claim_C4_witness :
    (∀ c ∈ transcribeCues [⟨[⟨some 0, some 1, "Hi".data⟩], 0, 1, "Hi".data⟩],
      tsVal c.1 < tsVal c.2.1) ∧
    ((transcribeCues [⟨[⟨some 0, some 1, "Hi".data⟩], 0, 1, "Hi".data⟩]).map
        (fun c => tsVal c.1)).Pairwise (· ≤ ·) :=
  claim_C4_cue_order [⟨[⟨some 0, some 1, "Hi".data⟩], 0, 1, "Hi".data⟩]
    (by
      intro pq hpq
      rw [show emittedTimes [⟨[⟨some 0, some 1, "Hi".data⟩], 0, 1, "Hi".data⟩]
          = [((0 : ℚ), (1 : ℚ))] from rfl, List.mem_singleton] at hpq
      subst hpq
      norm_num)
    (by
      rw [show emittedTimes [⟨[⟨some 0, some 1, "Hi".data⟩], 0, 1, "Hi".data⟩]
          = [((0 : ℚ), (1 : ℚ))] from rfl]
      simp)


theorem digit_ofNat (n : ℕ) (h : n < 10) : (Char.ofNat (48 + n)).isDigit = true := by
  interval_cases n <;> decide

theorem natCharsCore_digits (fuel : ℕ) :
    ∀ n, ∀ c ∈ natCharsCore fuel n, c.isDigit = true := by
  induction fuel with
  | zero => intro n c hc; simp [natCharsCore] at hc
  | succ f ih =>
      intro n c hc
      unfold natCharsCore at hc
      by_cases h0 : n = 0
      · rw [if_pos h0] at hc
        simp at hc
      · rw [if_neg h0] at hc
        rcases List.mem_append.mp hc with h | h
        · exact ih (n / 10) c h
        · have hce : c = Char.ofNat (48 + n % 10) := by simpa using h
          subst hce
          exact digit_ofNat (n % 10) (Nat.mod_lt _ (by norm_num))

theorem natChars_digits (n : ℕ) : ∀ c ∈ natChars n, c.isDigit = true := by
  intro c hc
  unfold natChars at hc
  by_cases h0 : n = 0
  · rw [if_pos h0] at hc
    simp at hc
    subst hc
    decide
  · rw [if_neg h0] at hc
    exact natCharsCore_digits (n + 1) n c hc

theorem natChars_ne_nil (n : ℕ) : natChars n ≠ [] := by
  unfold natChars
  by_cases h0 : n = 0
  · rw [if_pos h0]
    simp
  · rw [if_neg h0]
    unfold natCharsCore
    rw [if_neg h0]
    simp

theorem takeWhile_append_all (p : Char → Bool) (l r : List Char)
    (h : ∀ c ∈ l, p c = true) :
    (l ++ r).takeWhile p = l ++ r.takeWhile p := by
  induction l with
  | nil => simp
  | cons a as ih =>
      simp only [List.cons_append, List.takeWhile_cons, h a (by simp)]
      rw [ih (fun c hc => h c (by simp [hc]))]
      simp

theorem dropWhile_append_all (p : Char → Bool) (l r : List Char)
    (h : ∀ c ∈ l, p c = true) :
    (l ++ r).dropWhile p = r.dropWhile p := by
  induction l with
  | nil => simp
  | cons a as ih =>
      simp only [List.cons_append, List.dropWhile_cons, h a (by simp)]
      simp only [if_true]
      exact ih (fun c hc => h c (by simp [hc]))

theorem takeDigits_serialize (i : ℕ) (r : List Char) :
    takeDigits (natChars i ++ '\n' :: r) = (natChars i, '\n' :: r) := by
  unfold takeDigits
  rw [takeWhile_append_all Char.isDigit _ _ (natChars_digits i),
    dropWhile_append_all Char.isDigit _ _ (natChars_digits i)]
  simp [List.takeWhile_cons, List.dropWhile_cons]

theorem isTimeCode_length (t : List Char) (h : isTimeCode t = true) :
    t.length = 12 := by
  unfold isTimeCode at h
  rcases t with _ | ⟨c1, _ | ⟨c2, _ | ⟨c3, _ | ⟨c4, _ | ⟨c5, _ | ⟨c6, _ | ⟨c7,
    _ | ⟨c8, _ | ⟨c9, _ | ⟨c10, _ | ⟨c11, _ | ⟨c12, _ | ⟨c13,
    rest⟩⟩⟩⟩⟩⟩⟩⟩⟩⟩⟩⟩⟩ <;> simp_all

theorem takeTimeCode_append (t r : List Char) (h : isTimeCode t = true) :
    takeTimeCode? (t ++ r) = some (t, r) := by
  unfold takeTimeCode?
  have hlen := isTimeCode_length t h
  rw [← hlen, List.take_left, List.drop_left, if_pos h]

theorem isPrefixOf_append (l r : List Char) : l.isPrefixOf (l ++ r) = true := by
  induction l with
  | nil => simp [List.isPrefixOf]
  | cons a as ih => simp [List.isPrefixOf, ih]

theorem takeLit_append (lit r : List Char) : takeLit lit (lit ++ r) = some r := by
  unfold takeLit
  rw [if_pos (isPrefixOf_append lit r), List.drop_left]

theorem headIsNl_false (d : Char) (l : List Char) (hd : d ≠ '\n') :
    headIsNl (d :: l) = false := by
  unfold headIsNl
  split
  · next heq => simp_all
  · rfl

theorem takeLazyText_append (t : List Char) :
    ∀ Z : List Char, noDoubleNl t = true → t.getLast? ≠ some '\n' →
    takeLazyText (t ++ '\n' :: '\n' :: Z) = (t, '\n' :: '\n' :: Z) := by
  induction t with
  | nil => intro Z _ _; rfl
  | cons c t' ih =>
      intro Z hnd hlast
      rw [List.cons_append]
      unfold takeLazyText
      cases t' with
      | nil =>
          have hc : c ≠ '\n' := by
            intro h
            exact hlast (by simp [h])
          rw [if_neg (by simp [hc])]
          rfl
      | cons d t'' =>
          have hnd' : noDoubleNl (d :: t'') = true := by
            unfold noDoubleNl at hnd
            simp only [Bool.and_eq_true] at hnd
            exact hnd.2
          have hlast' : (d :: t'').getLast? ≠ some '\n' := by
            rw [List.getLast?_cons_cons] at hlast
            exact hlast
          by_cases hc : c = '\n'
          · have hd : d ≠ '\n' := by
              intro h
              subst hc h
              unfold noDoubleNl at hnd
              simp at hnd
            rw [List.cons_append, headIsNl_false d _ hd]
            rw [if_neg (by simp)]
            rw [← List.cons_append, ih Z hnd' hlast']
          · rw [if_neg (by simp [hc])]
            rw [ih Z hnd' hlast']

theorem matchEntry_serialize (e : SrtEntry) (i : ℕ) (Z : List Char)
    (hwf : wellFormedSub e = true) :
    matchEntry (natChars i ++ '\n' ::
        (e.start ++ " --> ".data ++ e.stop ++ '\n' :: (e.text ++ '\n' :: '\n' :: Z)))
      = some (⟨charsToNat (natChars i), e.start, e.stop, pyStripList e.text⟩,
          '\n' :: '\n' :: Z) := by
  unfold wellFormedSub at hwf
  simp only [Bool.and_eq_true, bne_iff_ne, ne_eq] at hwf
  obtain ⟨⟨⟨hstart, hstop⟩, hnd⟩, hlast⟩ := hwf
  unfold matchEntry
  rw [takeDigits_serialize]
  dsimp only
  have hne : ¬((natChars i).isEmpty = true) := by
    simpa using natChars_ne_nil i
  rw [if_neg hne]
  rw [List.append_assoc, List.append_assoc]
  simp only [takeTimeCode_append, hstart, hstop, takeLit_append,
    takeLazyText_append, hnd, hlast, ne_eq, not_false_eq_true]

theorem matchEntry_nl (x : List Char) : matchEntry ('\n' :: x) = none := by
  unfold matchEntry takeDigits
  simp [List.takeWhile_cons]

theorem scanSrt_nil (fuel : ℕ) : scanSrt fuel [] = [] := by
  cases fuel <;> rfl

theorem scanSrt_succ (fuel : ℕ) (s : List Char) :
    scanSrt (fuel + 1) s =
      match matchEntry s with
      | some (e, rest) => e :: scanSrt fuel rest
      | none =>
          match s with
          | [] => []
          | _ :: rest => scanSrt fuel rest := rfl

theorem scanSrt_serializeFrom (subs : List SrtEntry) :
    ∀ i fuel, (∀ e ∈ subs, wellFormedSub e = true) → 3 * subs.length ≤ fuel →
    scanSrt fuel (serializeFrom i subs) = parsedFrom i subs := by
  induction subs with
  | nil =>
      intro i fuel _ _
      rw [show serializeFrom i [] = [] from rfl, scanSrt_nil]
      rfl
  | cons e rest ih =>
      intro i fuel hwf hfuel
      rw [List.length_cons] at hfuel
      obtain ⟨f, rfl⟩ : ∃ f, fuel = f + 3 := ⟨fuel - 3, by omega⟩
      rw [serializeFrom]
      rw [show f + 3 = (f + 2) + 1 from rfl, scanSrt_succ,
        matchEntry_serialize e i (serializeFrom (i + 1) rest) (hwf e (by simp))]
      dsimp only
      rw [show f + 2 = (f + 1) + 1 from rfl, scanSrt_succ, matchEntry_nl]
      dsimp only
      rw [scanSrt_succ, matchEntry_nl]
      dsimp only
      rw [ih (i + 1) f (fun x hx => hwf x (by simp [hx])) (by omega)]
      rfl

theorem serializeFrom_length (subs : List SrtEntry) :
    ∀ i, 3 * subs.length ≤ (serializeFrom i subs).length := by
  induction subs with
  | nil => intro i; simp [serializeFrom]
  | cons e rest ih =>
      intro i
      rw [serializeFrom]
      have h1 : 1 ≤ (natChars i).length :=
        List.length_pos.mpr (natChars_ne_nil i)
      have h2 := ih (i + 1)
      simp only [List.length_append, List.length_cons, List.length_cons]
      omega

theorem parsedFrom_times (subs : List SrtEntry) :
    ∀ i, (parsedFrom i subs).map (fun e => (e.start, e.stop))
      = subs.map (fun e => (e.start, e.stop)) := by
  induction subs with
  | nil => intro i; rfl
  | cons e rest ih =>
      intro i
      rw [parsedFrom, List.map_cons, List.map_cons, ih (i + 1)]

/-- C5: parsing a caption file written by the serializer of
`translate_subtitles` returns, for well-formed cues (valid 12-character
time codes, no blank line inside the text, no trailing newline), the
same start and end time codes byte-for-byte. -/
theorem claim_C5_timecode_roundtrip (subs : List SrtEntry)
    (hwf : ∀ e ∈ subs, wellFormedSub e = true) :
    (parseSrt (serializeSubs subs)).map (fun e => (e.start, e.stop))
      = subs.map (fun e => (e.start, e.stop)) := by
  unfold parseSrt serializeSubs
  rw [scanSrt_serializeFrom subs 1 _ hwf
    (by have := serializeFrom_length subs 1; omega)]
  exact parsedFrom_times subs 1

theorem claim_C5_witness :
    (∀ e ∈ [(⟨1, "00:00:01,000".data, "00:00:02,000".data, "Hello".data⟩ : SrtEntry),
        ⟨2, "00:00:02,000".data, "00:00:03,500".data, "World".data⟩],
      wellFormedSub e = true) ∧
    (parseSrt (serializeSubs
        [(⟨1, "00:00:01,000".data, "00:00:02,000".data, "Hello".data⟩ : SrtEntry),
          ⟨2, "00:00:02,000".data, "00:00:03,500".data, "World".data⟩])).map
        (fun e => (e.start, e.stop))
      = [(⟨1, "00:00:01,000".data, "00:00:02,000".data, "Hello".data⟩ : SrtEntry),
          ⟨2, "00:00:02,000".data, "00:00:03,500".data, "World".data⟩].map
          (fun e => (e.start, e.stop)) :=
  ⟨by decide,
   claim_C5_timecode_roundtrip
     [(⟨1, "00:00:01,000".data, "00:00:02,000".data, "Hello".data⟩ : SrtEntry),
       ⟨2, "00:00:02,000".data, "00:00:03,500".data, "World".data⟩] (by decide)⟩

end Autosub
